import Mathlib

set_option autoImplicit false

namespace Opage

/-!
Shallow embedding of the opage OpenAPI client generator's schema resolution
engine and operation resolver, translated from:
src/parser/component.rs, src/parser/component/object_definition.rs,
src/generator/component/type_definition.rs,
src/generator/rust_reqwest_async/component/object_definition/types.rs,
src/generator/rust_reqwest_async/path/utils.rs,
src/generator/rust_reqwest_async/path/default_request.rs,
src/utils/name_mapping.rs, src/utils/spec_ignore.rs, src/utils/config.rs.

Modelling conventions:
- Rust HashMap and BTreeMap values become association lists; HashMap insert
  replaces the value of an existing key in place, otherwise it appends.
- Mutable borrows of the ObjectDatabase are modelled by threading the
  database through every function and returning it next to the Result, so
  mutations made before an Err are preserved exactly as in Rust.
- The mutually recursive resolution functions are made total with an explicit
  fuel parameter; exhausted fuel yields a distinguished error value.
- External crates consumed by the engine (convert_case casing, the http
  status-code table, oas3 reference resolution) are modelled by small
  functions marked as such in their doc comments.
-/

/-- Left curly brace character, used in URL templates. -/
def lbrace : Char := Char.ofNat 123

/-- Right curly brace character, used in URL templates. -/
def rbrace : Char := Char.ofNat 125

/-- Worker for rust_split: accumulates the current field in reverse. -/
def split_char_aux (sep : Char) : List Char → List Char → List (List Char)
  | [], acc => [acc.reverse]
  | c :: cs, acc =>
    if c = sep then acc.reverse :: split_char_aux sep cs []
    else split_char_aux sep cs (c :: acc)

/-- Model of Rust str::split with a single separator character. -/
def rust_split (sep : Char) (s : String) : List String :=
  (split_char_aux sep s.data []).map String.mk

/-- Model of Rust str::replace of two slashes by one (as used in
path_to_string): scan left to right, replacements are not rescanned. -/
def replace_double_slash : List Char → List Char
  | '/' :: '/' :: cs => '/' :: replace_double_slash cs
  | c :: cs => c :: replace_double_slash cs
  | [] => []

/-- True when the accumulated word ends (in original order) with a lowercase
character; used for the camel-case boundary. -/
def head_is_lower : List Char → Bool
  | p :: _ => p.isLower
  | [] => false

/-- Model of the convert_case crate word splitter with its default boundaries
as exercised by this code base: a word break at an underscore, hyphen or
space, and at a lower-to-upper camel boundary. -/
def word_split_aux : List Char → List Char → List (List Char)
  | [], acc => if acc.isEmpty then [] else [acc.reverse]
  | c :: cs, acc =>
    if c = '_' ∨ c = '-' ∨ c = ' ' then
      (if acc.isEmpty then [] else [acc.reverse]) ++ word_split_aux cs []
    else if c.isUpper ∧ head_is_lower acc then
      acc.reverse :: word_split_aux cs [c]
    else
      word_split_aux cs (c :: acc)

/-- Capitalize one word: first character upper, remainder lower. -/
def capitalize_word : List Char → List Char
  | [] => []
  | c :: rest => c.toUpper :: rest.map Char.toLower

/-- Model of convert_case to_case(Case::Pascal). -/
def to_pascal (s : String) : String :=
  String.mk (((word_split_aux s.data []).map capitalize_word).flatten)

/-- Model of convert_case to_case(Case::Snake). -/
def to_snake (s : String) : String :=
  String.mk (List.intercalate ['_'] ((word_split_aux s.data []).map (fun w => w.map Char.toLower)))

/-- Association-list lookup, the model of HashMap and BTreeMap get. -/
def lookup_assoc {α : Type} : List (String × α) → String → Option α
  | [], _ => none
  | (k, v) :: rest, key => if k = key then some v else lookup_assoc rest key

/-- Association-list insert, the model of HashMap insert: replace the value
of an existing key in place, otherwise append. -/
def insert_assoc {α : Type} : List (String × α) → String → α → List (String × α)
  | [], key, v => [(key, v)]
  | (k, w) :: rest, key, v =>
    if k = key then (key, v) :: rest else (k, w) :: insert_assoc rest key v

/-- Association-list membership, the model of HashMap contains_key. -/
def contains_assoc {α : Type} (l : List (String × α)) (key : String) : Bool :=
  (lookup_assoc l key).isSome

/-- Schema types of oas3::spec::SchemaType. -/
inductive SchemaType where
  | boolean
  | integer
  | number
  | string
  | array
  | object
  | null
  deriving DecidableEq, Repr

/-- oas3::spec::SchemaTypeSet. -/
inductive SchemaTypeSet where
  | single (t : SchemaType)
  | multiple (ts : List SchemaType)
  deriving DecidableEq, Repr

mutual

/-- oas3::spec::ObjectOrReference of ObjectSchema. -/
inductive SchemaOrRef where
  | ref (ref_path : String)
  | obj (schema : ObjectSchema)

/-- The fields of oas3::spec::ObjectSchema read by the engine.  The presence
of const_value is modelled by the boolean has_const. -/
inductive ObjectSchema where
  | mk
    (title : Option String)
    (schema_type : Option SchemaTypeSet)
    (has_const : Bool)
    (any_of : List SchemaOrRef)
    (one_of : List SchemaOrRef)
    (all_of : List SchemaOrRef)
    (properties : List (String × SchemaOrRef))
    (required : List String)
    (items : Option SchemaOrRef)

end

/-- Field accessor for ObjectSchema. -/
def ObjectSchema.title : ObjectSchema → Option String
  | .mk t _ _ _ _ _ _ _ _ => t

/-- Field accessor for ObjectSchema. -/
def ObjectSchema.schema_type : ObjectSchema → Option SchemaTypeSet
  | .mk _ st _ _ _ _ _ _ _ => st

/-- Field accessor for ObjectSchema. -/
def ObjectSchema.has_const : ObjectSchema → Bool
  | .mk _ _ c _ _ _ _ _ _ => c

/-- Field accessor for ObjectSchema. -/
def ObjectSchema.any_of : ObjectSchema → List SchemaOrRef
  | .mk _ _ _ a _ _ _ _ _ => a

/-- Field accessor for ObjectSchema. -/
def ObjectSchema.one_of : ObjectSchema → List SchemaOrRef
  | .mk _ _ _ _ o _ _ _ _ => o

/-- Field accessor for ObjectSchema. -/
def ObjectSchema.all_of : ObjectSchema → List SchemaOrRef
  | .mk _ _ _ _ _ a _ _ _ => a

/-- Field accessor for ObjectSchema. -/
def ObjectSchema.properties : ObjectSchema → List (String × SchemaOrRef)
  | .mk _ _ _ _ _ _ p _ _ => p

/-- Field accessor for ObjectSchema. -/
def ObjectSchema.required : ObjectSchema → List String
  | .mk _ _ _ _ _ _ _ r _ => r

/-- Field accessor for ObjectSchema. -/
def ObjectSchema.items : ObjectSchema → Option SchemaOrRef
  | .mk _ _ _ _ _ _ _ _ i => i

/-- NameMapping from src/utils/name_mapping.rs. -/
structure NameMapping where
  struct_mapping : List (String × String)
  property_mapping : List (String × String)
  module_mapping : List (String × String)
  status_code_mapping : List (String × String)
  deriving DecidableEq, Repr

/-- The empty NameMapping (NameMapping::new). -/
def NameMapping.new : NameMapping :=
  { struct_mapping := [], property_mapping := [], module_mapping := [], status_code_mapping := [] }

/-- path_to_string from src/utils/name_mapping.rs. -/
def path_to_string (path : List String) (token_name : String) : String :=
  let path_str := String.intercalate "/" path
  String.mk (replace_double_slash
    (if path_str.length = 0 then "/" ++ token_name else "/" ++ path_str ++ "/" ++ token_name).data)

/-- NameMapping::name_to_struct_name. -/
def NameMapping.name_to_struct_name (nmg : NameMapping) (path : List String) (name : String) : String :=
  let converted_name := to_pascal name
  let path_str := path_to_string path converted_name
  match lookup_assoc nmg.struct_mapping path_str with
  | some n => n
  | none => converted_name

/-- NameMapping::name_to_property_name. -/
def NameMapping.name_to_property_name (nmg : NameMapping) (path : List String) (name : String) : String :=
  let converted_name := to_snake name
  let path_str := path_to_string path converted_name
  match lookup_assoc nmg.property_mapping path_str with
  | some n => n
  | none => converted_name

/-- NameMapping::name_to_module_name (takes no definition path). -/
def NameMapping.name_to_module_name (nmg : NameMapping) (name : String) : String :=
  let converted_name := to_snake name
  match lookup_assoc nmg.module_mapping converted_name with
  | some n => n
  | none => converted_name

/-- Model of http StatusCode::from_bytes: exactly three ASCII digits with a
value of at least 100. -/
def status_code_from_str (s : String) : Option Nat :=
  match s.data with
  | [a, b, c] =>
    if a.isDigit ∧ b.isDigit ∧ c.isDigit then
      let n := (a.toNat - 48) * 100 + (b.toNat - 48) * 10 + (c.toNat - 48)
      if 100 ≤ n then some n else none
    else none
  | _ => none

/-- Model of http StatusCode::canonical_reason for the status codes exercised
by this development; codes outside the standard table yield none. -/
def status_canonical_reason (code : Nat) : Option String :=
  if code = 200 then some "OK"
  else if code = 201 then some "Created"
  else if code = 204 then some "No Content"
  else if code = 400 then some "Bad Request"
  else if code = 404 then some "Not Found"
  else if code = 500 then some "Internal Server Error"
  else none

/-- NameMapping::status_code_to_canonical_name. -/
def NameMapping.status_code_to_canonical_name (nmg : NameMapping) (code : Nat) : Except String String :=
  match lookup_assoc nmg.status_code_mapping (toString code) with
  | some n => .ok n
  | none =>
    match status_canonical_reason code with
    | some c => .ok c
    | none => .error ("Failed to get canonical status code " ++ toString code)

/-- SpecIgnore from src/utils/spec_ignore.rs. -/
structure SpecIgnore where
  paths : List String
  components : List String
  deriving DecidableEq, Repr

/-- SpecIgnore::path_ignored. -/
def SpecIgnore.path_ignored (si : SpecIgnore) (path : String) : Bool :=
  si.paths.contains path

/-- SpecIgnore::component_ignored. -/
def SpecIgnore.component_ignored (si : SpecIgnore) (component : String) : Bool :=
  si.components.contains component

/-- Config from src/utils/config.rs; project_metadata is omitted, it is used
only by emission, never by resolution. -/
structure Config where
  name_mapping : NameMapping
  ignore : SpecIgnore

/-- Config::new. -/
def Config.new : Config :=
  { name_mapping := NameMapping.new, ignore := { paths := [], components := [] } }

/-- The input OpenAPI document: the component schemas (None when the document
has no components section) and, for the path walker, the path templates with
their operation identifiers. -/
structure Spec where
  components : Option (List (String × SchemaOrRef))
  paths : List (String × String)

/-- Model of oas3 ObjectOrReference::resolve: an inline object resolves to
itself, a reference path like a hash, components, schemas, Name chain
resolves by looking up its final segment among the component schemas. -/
def SchemaOrRef.resolve (spec : Spec) : SchemaOrRef → Except String ObjectSchema
  | .obj s => .ok s
  | .ref p =>
    match (rust_split '/' p).getLast? with
    | none => .error ("Failed to resolve object " ++ p)
    | some nm =>
      match lookup_assoc (spec.components.getD []) nm with
      | some (.obj s) => .ok s
      | some (.ref _) => .error ("Failed to resolve object " ++ p)
      | none => .error ("Failed to resolve object " ++ p)

/-- ModuleInfo from types.rs. -/
structure ModuleInfo where
  name : String
  path : String
  deriving DecidableEq, Repr

/-- TypeDefinition from types.rs. -/
structure TypeDefinition where
  name : String
  module : Option ModuleInfo
  deriving DecidableEq, Repr

/-- PropertyDefinition from types.rs. -/
structure PropertyDefinition where
  name : String
  real_name : String
  type_name : String
  module : Option ModuleInfo
  required : Bool
  deriving DecidableEq, Repr

/-- EnumValue from types.rs. -/
structure EnumValue where
  name : String
  value_type : TypeDefinition
  deriving DecidableEq, Repr

/-- EnumDefinition from types.rs; the values HashMap becomes an association
list. -/
structure EnumDefinition where
  name : String
  used_modules : List ModuleInfo
  values : List (String × EnumValue)
  deriving DecidableEq, Repr

/-- StructDefinition from types.rs; the properties HashMap becomes an
association list.  The local_objects field is omitted: every construction
site in the embedded code passes an empty map and the field is never read. -/
structure StructDefinition where
  used_modules : List ModuleInfo
  name : String
  properties : List (String × PropertyDefinition)
  deriving DecidableEq, Repr

/-- PrimitveDefinition from types.rs (source spelling preserved). -/
structure PrimitveDefinition where
  name : String
  primitive_type : TypeDefinition
  deriving DecidableEq, Repr

/-- ObjectDefinition from types.rs. -/
inductive ObjectDefinition where
  | Struct (s : StructDefinition)
  | Enum (e : EnumDefinition)
  | Primitive (p : PrimitveDefinition)
  deriving DecidableEq, Repr

/-- ObjectDatabase from types.rs: HashMap from canonical type name to
ObjectDefinition, modelled as an association list. -/
abbrev ObjectDatabase : Type := List (String × ObjectDefinition)

/-- HashMap::get on the object database. -/
def db_get (db : ObjectDatabase) (key : String) : Option ObjectDefinition :=
  lookup_assoc db key

/-- HashMap::contains_key on the object database. -/
def db_contains (db : ObjectDatabase) (key : String) : Bool :=
  contains_assoc db key

/-- HashMap::insert on the object database. -/
def db_insert (db : ObjectDatabase) (key : String) (v : ObjectDefinition) : ObjectDatabase :=
  insert_assoc db key v

/-- get_components_base_path from object_definition.rs. -/
def get_components_base_path : List String :=
  ["#", "components", "schemas"]

/-- get_object_name from object_definition.rs. -/
def get_object_name : ObjectDefinition → String
  | .Struct struct_definition => struct_definition.name
  | .Enum enum_definition => enum_definition.name
  | .Primitive type_definition => type_definition.name

/-- is_object_empty from object_definition.rs. -/
def is_object_empty (object_schema : ObjectSchema) : Bool :=
  object_schema.schema_type.isNone
    && object_schema.has_const == false
    && object_schema.any_of.isEmpty
    && object_schema.all_of.isEmpty
    && object_schema.one_of.isEmpty

/-- oas3_type_to_string from object_definition.rs. -/
def oas3_type_to_string : SchemaType → String
  | .boolean => "Boolean"
  | .integer => "Integer"
  | .number => "Number"
  | .string => "String"
  | .array => "Array"
  | .object => "Object"
  | .null => "Null"

/-- get_base_path_to_ref from object_definition.rs. -/
def get_base_path_to_ref (ref_path : String) : Except String (List String) :=
  let path_segments := rust_split '/' ref_path
  if path_segments.length < 4 then .error ("Expected 4 path segments in " ++ ref_path)
  else .ok path_segments.dropLast

/-- get_object_or_ref_struct_name from object_definition.rs. -/
def get_object_or_ref_struct_name (spec : Spec) (definition_path : List String)
    (nmg : NameMapping) (object_or_reference : SchemaOrRef) :
    Except String (List String × String) :=
  match object_or_reference with
  | .ref ref_path =>
    match get_base_path_to_ref ref_path with
    | .error err => .error err
    | .ok ref_definition_path =>
      match SchemaOrRef.resolve spec (.ref ref_path) with
      | .ok object_schema =>
        match object_schema.title with
        | some ref_title =>
          .ok (ref_definition_path, nmg.name_to_struct_name ref_definition_path ref_title)
        | none =>
          match (rust_split '/' ref_path).getLast? with
          | some path_name =>
            .ok (ref_definition_path, nmg.name_to_struct_name ref_definition_path path_name)
          | none => .error ("Unable to retrieve name from ref path " ++ ref_path)
      | .error err => .error ("Failed to resolve object " ++ err)
  | .obj object_schema =>
    match object_schema.title with
    | some title => .ok (definition_path, nmg.name_to_struct_name definition_path title)
    | none =>
      match object_schema.schema_type with
      | some schema_type =>
        let type_name :=
          match schema_type with
          | .single single_type => oas3_type_to_string single_type
          | .multiple multiple_types => String.join (multiple_types.map oas3_type_to_string)
        .ok (definition_path, nmg.name_to_struct_name definition_path type_name)
      | none => .error "Unable to determine object name"

/-- The serde Serialize and Deserialize module imports that generate_struct,
generate_enum_from_any and generate_enum_from_one_of place in used_modules. -/
def serde_modules : List ModuleInfo :=
  [{ name := "Serialize", path := "serde" }, { name := "Deserialize", path := "serde" }]

mutual

/-- get_type_from_schema from src/generator/component/type_definition.rs. -/
def get_type_from_schema (fuel : Nat) (spec : Spec) (db : ObjectDatabase)
    (definition_path : List String) (object_schema : ObjectSchema)
    (object_variable_fallback_name : Option String) (nmg : NameMapping) :
    ObjectDatabase × Except String TypeDefinition :=
  match fuel with
  | 0 => (db, .error "Fuel exhausted")
  | fuel + 1 =>
    match object_schema.schema_type with
    | some schema_type =>
      get_type_from_schema_type fuel spec db definition_path schema_type object_schema
        object_variable_fallback_name nmg
    | none =>
      if 0 < object_schema.any_of.length then
        get_type_from_any_type fuel spec db definition_path object_schema
          object_variable_fallback_name nmg
      else
        match object_variable_fallback_name with
        | none => (db, .error "Cannot create empty object without name")
        | some empty_object_name =>
          match get_or_create_object fuel spec db definition_path empty_object_name
              object_schema nmg with
          | (db, .ok object_definition) =>
            let object_name := get_object_name object_definition
            (db, .ok { name := object_name,
                       module := some { path := "crate::objects::" ++ nmg.name_to_module_name object_name,
                                        name := object_name } })
          | (db, .error err) => (db, .error err)

/-- get_type_from_any_type from src/generator/component/type_definition.rs. -/
def get_type_from_any_type (fuel : Nat) (spec : Spec) (db : ObjectDatabase)
    (definition_path : List String) (object_schema : ObjectSchema)
    (object_variable_fallback_name : Option String) (nmg : NameMapping) :
    ObjectDatabase × Except String TypeDefinition :=
  match fuel with
  | 0 => (db, .error "Fuel exhausted")
  | fuel + 1 =>
    let object_variable_name? : Except String String :=
      match object_schema.title with
      | some title => .ok (nmg.name_to_struct_name definition_path title)
      | none =>
        match object_variable_fallback_name with
        | some title_fallback => .ok title_fallback
        | none => .error "Cannot fetch type because no title or title_fallback was given"
    match object_variable_name? with
    | .error e => (db, .error e)
    | .ok object_variable_name =>
      match get_or_create_object fuel spec db definition_path object_variable_name
          object_schema nmg with
      | (db, .ok object_definition) =>
        let object_name := get_object_name object_definition
        (db, .ok { name := object_name,
                   module := some { path := "crate::objects::" ++ nmg.name_to_module_name object_name,
                                    name := object_name } })
      | (db, .error err) =>
        (db, .error ("Failed to generated struct " ++ object_variable_name ++ " " ++ err))

/-- get_type_from_schema_type from src/generator/component/type_definition.rs.
The Rust function binds object_variable_name before matching on the single
type, so a missing title and fallback is an error even for primitive types. -/
def get_type_from_schema_type (fuel : Nat) (spec : Spec) (db : ObjectDatabase)
    (definition_path : List String) (schema_type : SchemaTypeSet)
    (object_schema : ObjectSchema) (object_variable_fallback_name : Option String)
    (nmg : NameMapping) : ObjectDatabase × Except String TypeDefinition :=
  match fuel with
  | 0 => (db, .error "Fuel exhausted")
  | fuel + 1 =>
    match schema_type with
    | .multiple _ => (db, .error "MultiType is not supported")
    | .single single_type =>
      let object_variable_name? : Except String String :=
        match object_schema.title with
        | some title => .ok title
        | none =>
          match object_variable_fallback_name with
          | some title_fallback => .ok title_fallback
          | none => .error "Cannot fetch type because no title or title_fallback was given"
      match object_variable_name? with
      | .error e => (db, .error e)
      | .ok object_variable_name =>
        match single_type with
        | .boolean => (db, .ok { name := "bool", module := none })
        | .string => (db, .ok { name := "String", module := none })
        | .number => (db, .ok { name := "f64", module := none })
        | .integer => (db, .ok { name := "i32", module := none })
        | .array =>
          match object_schema.items with
          | none => (db, .error "Array has no item type")
          | some item_object_ref =>
            match get_object_or_ref_struct_name spec definition_path nmg item_object_ref with
            | .error err => (db, .error ("Unable to determine ArrayItem type name " ++ err))
            | .ok (item_type_definition_path, item_type_name) =>
              match SchemaOrRef.resolve spec item_object_ref with
              | .error err => (db, .error ("Failed to resolve ArrayItem " ++ err))
              | .ok item_object =>
                match get_type_from_schema fuel spec db item_type_definition_path item_object
                    (some item_type_name) nmg with
                | (db, .ok type_definition) =>
                  (db, .ok { type_definition with name := "Vec<" ++ type_definition.name ++ ">" })
                | (db, .error err) => (db, .error err)
        | .object =>
          match get_or_create_object fuel spec db definition_path object_variable_name
              object_schema nmg with
          | (db, .ok object_definition) =>
            let object_name := get_object_name object_definition
            (db, .ok { name := object_name,
                       module := some { path := "crate::objects::" ++ nmg.name_to_module_name object_name,
                                        name := object_name } })
          | (db, .error err) =>
            (db, .error ("Failed to generated struct " ++ object_variable_name ++ " " ++ err))
        | .null => (db, .error "Type null not supported")

/-- get_or_create_object from object_definition.rs: memoize on the canonical
name, otherwise insert an empty placeholder Struct (the hull) before
recursing, and overwrite it with the generated definition on success. -/
def get_or_create_object (fuel : Nat) (spec : Spec) (db : ObjectDatabase)
    (definition_path : List String) (name : String) (property_ref : ObjectSchema)
    (nmg : NameMapping) : ObjectDatabase × Except String ObjectDefinition :=
  match fuel with
  | 0 => (db, .error "Fuel exhausted")
  | fuel + 1 =>
    match db_get db (nmg.name_to_struct_name definition_path name) with
    | some object_in_database => (db, .ok object_in_database)
    | none =>
      let struct_name := nmg.name_to_struct_name definition_path name
      if db_contains db struct_name then
        (db, .error ("ObjectDatabase already contains an object " ++ struct_name))
      else
        let db := db_insert db struct_name
          (.Struct { used_modules := [], name := struct_name, properties := [] })
        match generate_object fuel spec db definition_path struct_name property_ref nmg with
        | (db, .ok created_struct) =>
          let created_name := get_object_name created_struct
          (db_insert db created_name created_struct, .ok created_struct)
        | (db, .error err) => (db, .error ("Failed to generate object: " ++ err))

/-- generate_object from object_definition.rs. -/
def generate_object (fuel : Nat) (spec : Spec) (db : ObjectDatabase)
    (definition_path : List String) (name : String) (object_schema : ObjectSchema)
    (nmg : NameMapping) : ObjectDatabase × Except String ObjectDefinition :=
  match fuel with
  | 0 => (db, .error "Fuel exhausted")
  | fuel + 1 =>
    if is_object_empty object_schema then (db, .error "Object is empty")
    else if 0 < object_schema.any_of.length then
      generate_enum_from_any fuel spec db definition_path name object_schema nmg
    else if 0 < object_schema.one_of.length then
      generate_enum_from_one_of fuel spec db definition_path name object_schema nmg
    else
      let schema_type :=
        match object_schema.schema_type with
        | some schema_type => schema_type
        | none => .single .string
      match schema_type with
      | .single .object => generate_struct fuel spec db definition_path name object_schema nmg
      | .single _ =>
        match get_type_from_schema fuel spec db definition_path object_schema (some name) nmg with
        | (db, .ok type_definition) =>
          (db, .ok (.Primitive { name := name, primitive_type := type_definition }))
        | (db, .error err) => (db, .error err)
      | .multiple _ => (db, .error "Multiple types are not supported")

/-- generate_struct from object_definition.rs: name the struct, extend the
definition path by that name, then resolve every property. -/
def generate_struct (fuel : Nat) (spec : Spec) (db : ObjectDatabase)
    (definition_path : List String) (name : String) (object_schema : ObjectSchema)
    (nmg : NameMapping) : ObjectDatabase × Except String ObjectDefinition :=
  match fuel with
  | 0 => (db, .error "Fuel exhausted")
  | fuel + 1 =>
    let struct_name := nmg.name_to_struct_name definition_path name
    match generate_struct_properties fuel spec db (definition_path ++ [struct_name])
        object_schema.properties object_schema.required [] nmg with
    | (db, .error err) => (db, .error err)
    | (db, .ok properties) =>
      (db, .ok (.Struct { name := struct_name, properties := properties,
                          used_modules := serde_modules }))

/-- The property loop of generate_struct: a property that fails to resolve is
dropped with a log line, never failing the whole struct. -/
def generate_struct_properties (fuel : Nat) (spec : Spec) (db : ObjectDatabase)
    (definition_path : List String) (props : List (String × SchemaOrRef))
    (required_names : List String) (acc : List (String × PropertyDefinition))
    (nmg : NameMapping) : ObjectDatabase × Except String (List (String × PropertyDefinition)) :=
  match fuel with
  | 0 => (db, .error "Fuel exhausted")
  | fuel + 1 =>
    match props with
    | [] => (db, .ok acc)
    | (property_name, property_ref) :: rest =>
      let property_required := required_names.contains property_name
      match get_or_create_property fuel spec db definition_path property_name property_ref
          property_required nmg with
      | (db, .error _) =>
        generate_struct_properties fuel spec db definition_path rest required_names acc nmg
      | (db, .ok property_definition) =>
        generate_struct_properties fuel spec db definition_path rest required_names
          (insert_assoc acc property_definition.name property_definition) nmg

/-- get_or_create_property from object_definition.rs. -/
def get_or_create_property (fuel : Nat) (spec : Spec) (db : ObjectDatabase)
    (definition_path : List String) (property_name : String) (property_ref : SchemaOrRef)
    (required : Bool) (nmg : NameMapping) : ObjectDatabase × Except String PropertyDefinition :=
  match fuel with
  | 0 => (db, .error "Fuel exhausted")
  | fuel + 1 =>
    match SchemaOrRef.resolve spec property_ref with
    | .error err => (db, .error ("Failed to resolve " ++ property_name ++ " " ++ err))
    | .ok property =>
      match get_object_or_ref_struct_name spec definition_path nmg property_ref with
      | .error err =>
        (db, .error ("Unable to determine property name of " ++ property_name ++ " " ++ err))
      | .ok (property_type_definition_path, property_type_name) =>
        match get_type_from_schema fuel spec db property_type_definition_path property
            (some property_type_name) nmg with
        | (db, .ok property_type_definition) =>
          (db, .ok { type_name := property_type_definition.name,
                     module := property_type_definition.module,
                     name := nmg.name_to_property_name definition_path property_name,
                     real_name := property_name,
                     required := required })
        | (db, .error err) => (db, .error err)

/-- generate_enum_from_any from object_definition.rs. -/
def generate_enum_from_any (fuel : Nat) (spec : Spec) (db : ObjectDatabase)
    (definition_path : List String) (name : String) (object_schema : ObjectSchema)
    (nmg : NameMapping) : ObjectDatabase × Except String ObjectDefinition :=
  match fuel with
  | 0 => (db, .error "Fuel exhausted")
  | fuel + 1 =>
    let enum_name := nmg.name_to_struct_name definition_path name
    match generate_enum_values fuel spec db (definition_path ++ [enum_name]) name
        object_schema.any_of [] nmg with
    | (db, .error err) => (db, .error err)
    | (db, .ok values) =>
      (db, .ok (.Enum { name := enum_name, values := values, used_modules := serde_modules }))

/-- generate_enum_from_one_of from object_definition.rs; the Rust source
duplicates the loop of generate_enum_from_any verbatim over one_of. -/
def generate_enum_from_one_of (fuel : Nat) (spec : Spec) (db : ObjectDatabase)
    (definition_path : List String) (name : String) (object_schema : ObjectSchema)
    (nmg : NameMapping) : ObjectDatabase × Except String ObjectDefinition :=
  match fuel with
  | 0 => (db, .error "Fuel exhausted")
  | fuel + 1 =>
    let enum_name := nmg.name_to_struct_name definition_path name
    match generate_enum_values fuel spec db (definition_path ++ [enum_name]) name
        object_schema.one_of [] nmg with
    | (db, .error err) => (db, .error err)
    | (db, .ok values) =>
      (db, .ok (.Enum { name := enum_name, values := values, used_modules := serde_modules }))

/-- The subschema loop shared by generate_enum_from_any and
generate_enum_from_one_of (identical in the Rust source): a subschema whose
reference fails to resolve, or whose reference path is too short, is skipped
with a logged error; a subschema with no derivable name aborts the whole enum
with an Err; a subschema whose type fails to resolve is skipped with a log
line. -/
def generate_enum_values (fuel : Nat) (spec : Spec) (db : ObjectDatabase)
    (definition_path : List String) (name : String) (elems : List SchemaOrRef)
    (values : List (String × EnumValue)) (nmg : NameMapping) :
    ObjectDatabase × Except String (List (String × EnumValue)) :=
  match fuel with
  | 0 => (db, .error "Fuel exhausted")
  | fuel + 1 =>
    match elems with
    | [] => (db, .ok values)
    | any_object_ref :: rest =>
      let resolved : Option (List String × ObjectSchema) :=
        match any_object_ref with
        | .ref ref_path =>
          match SchemaOrRef.resolve spec (.ref ref_path) with
          | .error _ => none
          | .ok object_schema =>
            match get_base_path_to_ref ref_path with
            | .error _ => none
            | .ok ref_definition_path => some (ref_definition_path, object_schema)
        | .obj object_schema => some (definition_path, object_schema)
      match resolved with
      | none => generate_enum_values fuel spec db definition_path name rest values nmg
      | some (any_object_definition_path, any_object) =>
        match get_object_or_ref_struct_name spec any_object_definition_path nmg any_object_ref with
        | .error err =>
          (db, .error (name ++ " Anonymous enum value are not supported \"" ++ err ++ "\""))
        | .ok (_, object_type_struct_name) =>
          let object_type_enum_name :=
            nmg.name_to_struct_name any_object_definition_path (object_type_struct_name ++ "Value")
          match get_type_from_schema fuel spec db any_object_definition_path any_object
              (some object_type_enum_name) nmg with
          | (db, .ok type_definition) =>
            generate_enum_values fuel spec db definition_path name rest
              (insert_assoc values object_type_enum_name
                { name := object_type_enum_name, value_type := type_definition }) nmg
          | (db, .error _) =>
            generate_enum_values fuel spec db definition_path name rest values nmg

end

/-- The component loop of generate_components (src/parser/component.rs):
ignored components are skipped before anything else; resolution failures and
generation failures are logged and skipped; a name already present in the
database (either before generation or, for cyclic references, after it) is
skipped rather than overwritten. -/
def generate_components_loop (fuel : Nat) (spec : Spec) (config : Config) (db : ObjectDatabase) :
    List (String × SchemaOrRef) → ObjectDatabase
  | [] => db
  | (component_name, object_ref) :: rest =>
    if config.ignore.component_ignored component_name then
      generate_components_loop fuel spec config db rest
    else
      match SchemaOrRef.resolve spec object_ref with
      | .error _ => generate_components_loop fuel spec config db rest
      | .ok resolved_object =>
        let definition_path := get_components_base_path
        let object_name :=
          match resolved_object.title with
          | some title => config.name_mapping.name_to_struct_name definition_path title
          | none => config.name_mapping.name_to_struct_name definition_path component_name
        if db_contains db object_name then
          generate_components_loop fuel spec config db rest
        else
          match generate_object fuel spec db definition_path object_name resolved_object
              config.name_mapping with
          | (db, .error _) => generate_components_loop fuel spec config db rest
          | (db, .ok object_definition) =>
            let object_name := get_object_name object_definition
            if db_contains db object_name then
              generate_components_loop fuel spec config db rest
            else
              generate_components_loop fuel spec config
                (db_insert db object_name object_definition) rest

/-- generate_components from src/parser/component.rs. -/
def generate_components (fuel : Nat) (spec : Spec) (config : Config) :
    Except String ObjectDatabase :=
  match spec.components with
  | none => .ok []
  | some components => .ok (generate_components_loop fuel spec config [] components)

/-- The serde alias line StructDefinition::to_string (types.rs) places in
front of a field whose canonical name differs from its wire name, in
serializable mode. -/
def serde_alias_string (serializable : Bool) (property : PropertyDefinition) : String :=
  if property.name ≠ property.real_name ∧ serializable = true then
    "#[serde(alias = \"" ++ property.real_name ++ "\")]\n"
  else ""

/-- The per-property fragment of StructDefinition::to_string (types.rs): the
serde alias line when applicable, then the field declaration, Option-wrapped
exactly when the property is not required. -/
def property_decl_string (serializable : Bool) (property : PropertyDefinition) : String :=
  serde_alias_string serializable property ++
  (match property.required with
   | true => "pub " ++ property.name ++ ": " ++ property.type_name ++ ",\n"
   | false => "pub " ++ property.name ++ ": Option<" ++ property.type_name ++ ">,\n")

/-- StructDefinition::to_string from types.rs. -/
def StructDefinition.to_string (sd : StructDefinition) (serializable : Bool) : String :=
  (if serializable then "#[derive(Serialize, Deserialize, Debug, Clone, PartialEq)]\n" else "") ++
  "pub struct " ++ sd.name ++ " \x7b\n\n" ++
  String.join (sd.properties.map (fun kv => property_decl_string serializable kv.2)) ++
  "\x7d"

/-- A declared content type of a request or response (the schema field of
oas3::spec::MediaType). -/
structure MediaType where
  schema : Option SchemaOrRef

/-- A declared response: its content map from content type to MediaType. -/
structure ResponseSpec where
  content : List (String × MediaType)

/-- TransferMediaType from rust_reqwest_async/path/utils.rs. -/
inductive TransferMediaType where
  | ApplicationJson (t : Option TypeDefinition)
  | TextPlain
  deriving DecidableEq, Repr

/-- ResponseEntity from rust_reqwest_async/path/utils.rs. -/
structure ResponseEntity where
  canonical_status_code : String
  content : List (String × TransferMediaType)
  deriving DecidableEq, Repr

/-- parse_json_data from rust_reqwest_async/path/utils.rs. -/
def parse_json_data (fuel : Nat) (spec : Spec) (db : ObjectDatabase)
    (definition_path : List String) (nmg : NameMapping) (new_object_name : String)
    (json_schema_object_or_ref : SchemaOrRef) :
    ObjectDatabase × Except String (Option TypeDefinition) :=
  match SchemaOrRef.resolve spec json_schema_object_or_ref with
  | .error err => (db, .error ("Failed to resolve json response " ++ err))
  | .ok schema_object =>
    if is_object_empty schema_object then (db, .ok none)
    else
      match json_schema_object_or_ref with
      | .ref _ =>
        match get_object_or_ref_struct_name spec definition_path nmg json_schema_object_or_ref with
        | .ok (_, object_name) =>
          (db, .ok (some { module := some { path := "crate::objects::" ++ nmg.name_to_module_name object_name,
                                            name := object_name },
                           name := object_name }))
        | .error err => (db, .error ("Unable to determine response type ref name " ++ err))
      | .obj object_schema =>
        match get_type_from_schema fuel spec db definition_path object_schema
            (some new_object_name) nmg with
        | (db, .ok type_definition) => (db, .ok (some type_definition))
        | (db, .error err) => (db, .error err)

/-- generate_json_content from rust_reqwest_async/path/utils.rs. -/
def generate_json_content (fuel : Nat) (spec : Spec) (db : ObjectDatabase)
    (definition_path : List String) (nmg : NameMapping) (json_media_type : MediaType)
    (content_object_name : String) : ObjectDatabase × Except String TransferMediaType :=
  match json_media_type.schema with
  | none => (db, .error "Failed to parse response json data")
  | some json_schema_object_or_ref =>
    match parse_json_data fuel spec db definition_path nmg
        (nmg.name_to_struct_name definition_path content_object_name)
        json_schema_object_or_ref with
    | (db, .ok none) => (db, .ok (.ApplicationJson none))
    | (db, .ok (some type_definition)) => (db, .ok (.ApplicationJson (some type_definition)))
    | (db, .error err) => (db, .error err)

/-- generate_content_type from rust_reqwest_async/path/utils.rs. -/
def generate_content_type (fuel : Nat) (spec : Spec) (db : ObjectDatabase)
    (definition_path : List String) (nmg : NameMapping) (content_type : String)
    (media_type : MediaType) (content_object_name : String) :
    ObjectDatabase × Except String TransferMediaType :=
  if content_type = "text/plain" then (db, .ok .TextPlain)
  else if content_type = "application/json" then
    generate_json_content fuel spec db definition_path nmg media_type
      (content_object_name ++ "Json")
  else (db, .error ("Content-Type " ++ content_type ++ " is not supported"))

/-- The loop of generated_content_types_from_content_map
(rust_reqwest_async/path/utils.rs): failing content types are logged and
skipped, duplicates are logged and skipped. -/
def generated_content_types_loop (fuel : Nat) (spec : Spec) (db : ObjectDatabase)
    (definition_path : List String) (nmg : NameMapping) (content_object_name : String)
    (content : List (String × MediaType)) (content_map : List (String × TransferMediaType)) :
    ObjectDatabase × List (String × TransferMediaType) :=
  match content with
  | [] => (db, content_map)
  | (content_type, media_type) :: rest =>
    match generate_content_type fuel spec db definition_path nmg content_type media_type
        content_object_name with
    | (db, .ok transfer_media_type) =>
      if contains_assoc content_map content_type then
        generated_content_types_loop fuel spec db definition_path nmg content_object_name
          rest content_map
      else
        generated_content_types_loop fuel spec db definition_path nmg content_object_name
          rest (insert_assoc content_map content_type transfer_media_type)
    | (db, .error _) =>
      generated_content_types_loop fuel spec db definition_path nmg content_object_name
        rest content_map

/-- generated_content_types_from_content_map from
rust_reqwest_async/path/utils.rs. -/
def generated_content_types_from_content_map (fuel : Nat) (spec : Spec) (db : ObjectDatabase)
    (definition_path : List String) (nmg : NameMapping)
    (content : List (String × MediaType)) (content_object_name : String) :
    ObjectDatabase × List (String × TransferMediaType) :=
  generated_content_types_loop fuel spec db definition_path nmg content_object_name content []

/-- The response loop of generate_responses
(rust_reqwest_async/path/utils.rs): the default key is skipped; an
unparseable status code or an unmappable canonical name aborts with Err;
otherwise an entity is inserted with whatever content types resolved. -/
def generate_responses_loop (fuel : Nat) (spec : Spec) (nmg : NameMapping)
    (definition_path : List String) (function_name : String) (db : ObjectDatabase)
    (responses : List (String × ResponseSpec)) (acc : List (String × ResponseEntity)) :
    ObjectDatabase × Except String (List (String × ResponseEntity)) :=
  match responses with
  | [] => (db, .ok acc)
  | (response_key, response) :: rest =>
    if response_key = "default" then
      generate_responses_loop fuel spec nmg definition_path function_name db rest acc
    else
      match status_code_from_str response_key with
      | none => (db, .error ("Failed to parse status code " ++ response_key))
      | some status_code =>
        match nmg.status_code_to_canonical_name status_code with
        | .error err => (db, .error err)
        | .ok canonical_status_code =>
          match generated_content_types_from_content_map fuel spec db definition_path nmg
              response.content (function_name ++ canonical_status_code) with
          | (db, content) =>
            generate_responses_loop fuel spec nmg definition_path function_name db rest
              (insert_assoc acc response_key
                { canonical_status_code := canonical_status_code, content := content })

/-- generate_responses from rust_reqwest_async/path/utils.rs. -/
def generate_responses (fuel : Nat) (spec : Spec) (db : ObjectDatabase)
    (definition_path : List String) (nmg : NameMapping)
    (responses : List (String × ResponseSpec)) (function_name : String) :
    ObjectDatabase × Except String (List (String × ResponseEntity)) :=
  generate_responses_loop fuel spec nmg definition_path function_name db responses []

/-- is_path_parameter from rust_reqwest_async/path/utils.rs. -/
def is_path_parameter (path_component : String) : Bool :=
  (match path_component.data with
   | c :: _ => c == lbrace
   | [] => false)
  && (match path_component.data.getLast? with
      | some c => c == rbrace
      | none => false)

/-- media_type_enum_name from rust_reqwest_async/path/default_request.rs. -/
def media_type_enum_name (definition_path : List String) (nmg : NameMapping)
    (transfer_media_type : TransferMediaType) : String :=
  let name :=
    match transfer_media_type with
    | .ApplicationJson _ => "Json"
    | .TextPlain => "Text"
  nmg.name_to_struct_name definition_path name

/-- Model of collect into a HashMap: fold the pairs with replacing insert.
The entry set matches the Rust map; iteration order of the Rust map is an
arbitrary permutation of this list. -/
def hash_collect {α : Type} (l : List (String × α)) : List (String × α) :=
  l.foldl (fun acc kv => insert_assoc acc kv.1 kv.2) []

/-- PathParameterCode from rust_reqwest_async/path/default_request.rs. -/
structure PathParameterCode where
  parameters_struct_variable_name : String
  parameters_struct : StructDefinition
  path_format_string : String
  deriving DecidableEq, Repr

/-- Rust str::replace removing both curly braces, as applied to path
segments in generate_path_parameter_code. -/
def strip_braces (s : String) : String :=
  String.mk (s.data.filter (fun c => c ≠ lbrace ∧ c ≠ rbrace))

/-- generate_path_parameter_code from
rust_reqwest_async/path/default_request.rs (the Rust function returns
Result but has no error path). -/
def generate_path_parameter_code (definition_path : List String) (nmg : NameMapping)
    (function_name : String) (path : String) : PathParameterCode :=
  let path_parameters_struct_name :=
    nmg.name_to_struct_name definition_path (function_name ++ "PathParameters")
  let path_parameters_definition_path := definition_path ++ [path_parameters_struct_name]
  let path_parameters_ordered :=
    (((rust_split '/' path).filter is_path_parameter).map strip_braces).map
      (fun path_component =>
        ({ module := none,
           name := nmg.name_to_property_name path_parameters_definition_path path_component,
           real_name := path_component,
           required := true,
           type_name := "&str" } : PropertyDefinition))
  let path_struct_definition : StructDefinition :=
    { name := path_parameters_struct_name,
      used_modules := [],
      properties := hash_collect (path_parameters_ordered.map
        (fun path_component =>
          (path_component.name,
           ({ module := none, name := path_component.name,
              real_name := path_component.real_name,
              required := path_component.required,
              type_name := "String" } : PropertyDefinition)))) }
  let path_format_string :=
    String.intercalate "/" ((rust_split '/' path).map
      (fun path_component =>
        if is_path_parameter path_component then String.mk [lbrace, rbrace]
        else path_component))
  { parameters_struct_variable_name := nmg.name_to_property_name definition_path "path_parameters",
    parameters_struct := path_struct_definition,
    path_format_string := path_format_string }

/-- The path_parameter_arguments expression of generate_operation
(default_request.rs, lines 641-653): the source iterates properties.keys()
of a Rust HashMap, whose iteration order is unspecified, and joins the
qualified names with a comma; the iteration order is therefore an explicit
argument here, constrained by the theorems only to be a permutation of the
entries. -/
def path_parameter_arguments (code : PathParameterCode)
    (iteration_order : List (String × PropertyDefinition)) : String :=
  String.intercalate ", " (iteration_order.map
    (fun kv => code.parameters_struct_variable_name ++ "." ++ kv.1))

/-- The body of the response-enum loop of generate_operation
(default_request.rs, lines 217-271): a status with no content type is
skipped entirely by the continue in the zero arm of the length match; one
content type carries the type directly; two or more refer to the per-status
value enum by name. -/
def response_enum_step (nmg : NameMapping) (response_enum_definition_path : List String)
    (response_enum : EnumDefinition) (kv : String × ResponseEntity) : EnumDefinition :=
  let status_code := kv.1
  let entity := kv.2
  let variant_name :=
    nmg.name_to_struct_name response_enum_definition_path entity.canonical_status_code
  match entity.content with
  | [] => response_enum
  | [(_, transfer_media_type)] =>
    let enum_value : EnumValue :=
      match transfer_media_type with
      | .ApplicationJson (some type_definition) =>
        { name := variant_name, value_type := type_definition }
      | .ApplicationJson none =>
        { name := variant_name, value_type := { name := "", module := none } }
      | .TextPlain =>
        { name := variant_name,
          value_type := { name := oas3_type_to_string .string, module := none } }
    { response_enum with values := insert_assoc response_enum.values status_code enum_value }
  | _ =>
    let enum_value : EnumValue :=
      { name := variant_name,
        value_type :=
          { name := nmg.name_to_struct_name response_enum_definition_path
              (entity.canonical_status_code ++ "Value"),
            module := none } }
    { response_enum with values := insert_assoc response_enum.values status_code enum_value }

/-- The response-enum construction of generate_operation
(default_request.rs, lines 211-286): one variant per response status with at
least one content type, keyed by the raw status string, built by
response_enum_step; a catch-all UndefinedResponse variant is inserted at the
end. -/
def generate_operation_response_enum (nmg : NameMapping)
    (response_enum_definition_path : List String) (response_enum_name : String)
    (response_entities : List (String × ResponseEntity)) : EnumDefinition :=
  let with_statuses := response_entities.foldl
    (response_enum_step nmg response_enum_definition_path)
    ({ name := response_enum_name, used_modules := [], values := [] } : EnumDefinition)
  { with_statuses with
    values := insert_assoc with_statuses.values "UndefinedResponse"
      { name := "UndefinedResponse",
        value_type := { name := "reqwest::Response",
                        module := some { name := "reqwest", path := "" } } } }

/-- Modelled from the spec: the path walker generate_paths of
src/generator/rust_reqwest_async/paths.rs is not present under src (only its
caller in main.rs is).  Per spec sections 2, 6 and 8 it iterates the
documents paths, applies the ignore rules so that a path listed in the
ignore configuration is skipped entirely and produces no generated
operation, and generates one operation per remaining path. -/
def generate_paths (spec : Spec) (config : Config) : List (String × String) :=
  spec.paths.filter (fun kv => !(config.ignore.path_ignored kv.1))

/-- Observer: how many entries of the database carry the given key. -/
def db_count_key (db : ObjectDatabase) (key : String) : Nat :=
  (db.filter (fun kv => kv.1 == key)).length

/-- The empty placeholder Struct (the hull) that get_or_create_object inserts
before recursing. -/
def hull_struct (name : String) : ObjectDefinition :=
  .Struct { used_modules := [], name := name, properties := [] }

/-! Association-list lemmas. -/

theorem lookup_insert_self {α : Type} (l : List (String × α)) (k : String) (v : α) :
    lookup_assoc (insert_assoc l k v) k = some v := by
  induction l with
  | nil => simp [insert_assoc, lookup_assoc]
  | cons hd tl ih =>
    obtain ⟨k', w⟩ := hd
    by_cases hk : k' = k
    · simp [insert_assoc, hk, lookup_assoc]
    · simp [insert_assoc, hk, lookup_assoc, ih]

theorem lookup_insert_ne {α : Type} (l : List (String × α)) (k key : String) (v : α)
    (hne : k ≠ key) : lookup_assoc (insert_assoc l k v) key = lookup_assoc l key := by
  induction l with
  | nil => simp [insert_assoc, lookup_assoc, hne]
  | cons hd tl ih =>
    obtain ⟨k', w⟩ := hd
    by_cases hk : k' = k
    · subst hk
      simp [insert_assoc, lookup_assoc, hne]
    · simp [insert_assoc, hk, lookup_assoc, ih]

theorem insert_append_of_lookup_none {α : Type} (l : List (String × α)) (k : String) (v : α)
    (h : lookup_assoc l k = none) : insert_assoc l k v = l ++ [(k, v)] := by
  induction l with
  | nil => simp [insert_assoc]
  | cons hd tl ih =>
    obtain ⟨k', w⟩ := hd
    by_cases hk : k' = k
    · simp [lookup_assoc, hk] at h
    · simp only [lookup_assoc, if_neg hk] at h
      simp [insert_assoc, hk, ih h]

theorem lookup_append_left {α : Type} (l₁ l₂ : List (String × α)) (k : String) (v : α)
    (h : lookup_assoc l₁ k = some v) : lookup_assoc (l₁ ++ l₂) k = some v := by
  induction l₁ with
  | nil => simp [lookup_assoc] at h
  | cons hd tl ih =>
    obtain ⟨k', w⟩ := hd
    by_cases hk : k' = k
    · simp only [lookup_assoc, if_pos hk] at h ⊢
      exact h
    · simp only [lookup_assoc, if_neg hk] at h ⊢
      exact ih h

theorem lookup_append_right {α : Type} (l₁ l₂ : List (String × α)) (k : String)
    (h : lookup_assoc l₁ k = none) : lookup_assoc (l₁ ++ l₂) k = lookup_assoc l₂ k := by
  induction l₁ with
  | nil => simp
  | cons hd tl ih =>
    obtain ⟨k', w⟩ := hd
    by_cases hk : k' = k
    · simp [lookup_assoc, hk] at h
    · simp only [lookup_assoc, if_neg hk] at h ⊢
      exact ih h

theorem mem_insert_assoc_preserves {α : Type} (P : α → Prop) :
    ∀ (l : List (String × α)) (k : String) (v : α),
      (∀ kv ∈ l, P kv.2) → P v → ∀ kv ∈ insert_assoc l k v, P kv.2
  | [], k, v, _, hv, kv, hkv => by
    simp only [insert_assoc, List.mem_singleton] at hkv
    subst hkv
    exact hv
  | (k', w) :: tl, k, v, hl, hv, kv, hkv => by
    by_cases hk : k' = k
    · simp only [insert_assoc, if_pos hk] at hkv
      rcases List.mem_cons.mp hkv with h | h
      · subst h
        exact hv
      · exact hl kv (List.mem_cons_of_mem _ h)
    · simp only [insert_assoc, if_neg hk] at hkv
      rcases List.mem_cons.mp hkv with h | h
      · subst h
        exact hl (k', w) (List.mem_cons_self _ _)
      · exact mem_insert_assoc_preserves P tl k v
          (fun kv hkv => hl kv (List.mem_cons_of_mem _ hkv)) hv kv h

theorem foldl_insert_of_disjoint {α : Type} :
    ∀ (l acc : List (String × α)),
      (l.map Prod.fst).Nodup →
      (∀ k ∈ l.map Prod.fst, lookup_assoc acc k = none) →
      l.foldl (fun acc kv => insert_assoc acc kv.1 kv.2) acc = acc ++ l
  | [], acc, _, _ => by simp
  | (k, v) :: tl, acc, hnodup, hacc => by
    simp only [List.foldl_cons]
    have hk : lookup_assoc acc k = none := hacc k (by simp)
    rw [insert_append_of_lookup_none acc k v hk]
    have hnodup' : (k :: tl.map Prod.fst).Nodup := by simpa using hnodup
    have hpair := List.nodup_cons.mp hnodup'
    have hrest := foldl_insert_of_disjoint tl (acc ++ [(k, v)]) hpair.2 ?_
    · rw [hrest]
      simp
    · intro k' hk'
      have hne : k ≠ k' := fun he => hpair.1 (he ▸ hk')
      have h1 : lookup_assoc acc k' = none := hacc k' (by simp [hk'])
      rw [lookup_append_right acc [(k, v)] k' h1]
      simp [lookup_assoc, hne]

theorem hash_collect_of_nodup {α : Type} (l : List (String × α))
    (h : (l.map Prod.fst).Nodup) : hash_collect l = l := by
  simpa [hash_collect] using foldl_insert_of_disjoint l [] h (fun k _ => rfl)

/-! Step lemmas for get_or_create_object. -/

theorem get_or_create_object_memo (fuel : Nat) (spec : Spec) (db : ObjectDatabase)
    (definition_path : List String) (name : String) (s : ObjectSchema) (nmg : NameMapping)
    (o : ObjectDefinition)
    (h : db_get db (nmg.name_to_struct_name definition_path name) = some o) :
    get_or_create_object (fuel + 1) spec db definition_path name s nmg = (db, .ok o) := by
  simp only [get_or_create_object, h]

theorem get_or_create_object_fresh_ok (fuel : Nat) (spec : Spec) (db db2 : ObjectDatabase)
    (definition_path : List String) (name : String) (s : ObjectSchema) (nmg : NameMapping)
    (created : ObjectDefinition)
    (h : db_get db (nmg.name_to_struct_name definition_path name) = none)
    (hgen : generate_object fuel spec
        (db_insert db (nmg.name_to_struct_name definition_path name)
          (hull_struct (nmg.name_to_struct_name definition_path name)))
        definition_path (nmg.name_to_struct_name definition_path name) s nmg
      = (db2, .ok created)) :
    get_or_create_object (fuel + 1) spec db definition_path name s nmg
      = (db_insert db2 (get_object_name created) created, .ok created) := by
  have h' : lookup_assoc db (nmg.name_to_struct_name definition_path name) = none := h
  simp only [get_or_create_object, h, db_contains, contains_assoc, h', Option.isSome_none,
    Bool.false_eq_true, if_false, hull_struct] at *
  rw [hgen]

theorem get_or_create_object_fresh_err (fuel : Nat) (spec : Spec) (db db2 : ObjectDatabase)
    (definition_path : List String) (name : String) (s : ObjectSchema) (nmg : NameMapping)
    (e : String)
    (h : db_get db (nmg.name_to_struct_name definition_path name) = none)
    (hgen : generate_object fuel spec
        (db_insert db (nmg.name_to_struct_name definition_path name)
          (hull_struct (nmg.name_to_struct_name definition_path name)))
        definition_path (nmg.name_to_struct_name definition_path name) s nmg
      = (db2, .error e)) :
    get_or_create_object (fuel + 1) spec db definition_path name s nmg
      = (db2, .error ("Failed to generate object: " ++ e)) := by
  have h' : lookup_assoc db (nmg.name_to_struct_name definition_path name) = none := h
  simp only [get_or_create_object, h, db_contains, contains_assoc, h', Option.isSome_none,
    Bool.false_eq_true, if_false, hull_struct] at *
  rw [hgen]

theorem generate_object_rejects (fuel : Nat) (spec : Spec) (db : ObjectDatabase)
    (definition_path : List String) (name : String) (s : ObjectSchema) (nmg : NameMapping)
    (hbad : is_object_empty s = true ∨
      (s.any_of = [] ∧ s.one_of = [] ∧ ∃ ts, s.schema_type = some (.multiple ts))) :
    ∃ e, generate_object (fuel + 1) spec db definition_path name s nmg = (db, .error e) := by
  rcases hbad with hemp | ⟨hany, hone, ts, hmul⟩
  · exact ⟨"Object is empty", by simp only [generate_object, hemp, if_true]⟩
  · have hemp : is_object_empty s = false := by
      simp only [is_object_empty, hmul, Option.isNone_some, Bool.false_and]
    refine ⟨"Multiple types are not supported", ?_⟩
    simp only [generate_object, hemp, Bool.false_eq_true, if_false, hany, hone, hmul,
      List.length_nil, Nat.lt_irrefl]

theorem generate_struct_ok_name (fuel : Nat) (spec : Spec) (db : ObjectDatabase)
    (definition_path : List String) (name : String) (s : ObjectSchema) (nmg : NameMapping)
    (db' : ObjectDatabase) (d : ObjectDefinition)
    (h : generate_struct fuel spec db definition_path name s nmg = (db', .ok d)) :
    get_object_name d = nmg.name_to_struct_name definition_path name := by
  match fuel with
  | 0 => simp [generate_struct] at h
  | fuel + 1 =>
    simp only [generate_struct] at h
    split at h
    · simp at h
    · obtain ⟨-, h2⟩ := Prod.mk.injEq .. ▸ h
      cases h2
      rfl

theorem generate_enum_from_any_ok_name (fuel : Nat) (spec : Spec) (db : ObjectDatabase)
    (definition_path : List String) (name : String) (s : ObjectSchema) (nmg : NameMapping)
    (db' : ObjectDatabase) (d : ObjectDefinition)
    (h : generate_enum_from_any fuel spec db definition_path name s nmg = (db', .ok d)) :
    get_object_name d = nmg.name_to_struct_name definition_path name := by
  match fuel with
  | 0 => simp [generate_enum_from_any] at h
  | fuel + 1 =>
    simp only [generate_enum_from_any] at h
    split at h
    · simp at h
    · obtain ⟨-, h2⟩ := Prod.mk.injEq .. ▸ h
      cases h2
      rfl

theorem generate_enum_from_one_of_ok_name (fuel : Nat) (spec : Spec) (db : ObjectDatabase)
    (definition_path : List String) (name : String) (s : ObjectSchema) (nmg : NameMapping)
    (db' : ObjectDatabase) (d : ObjectDefinition)
    (h : generate_enum_from_one_of fuel spec db definition_path name s nmg = (db', .ok d)) :
    get_object_name d = nmg.name_to_struct_name definition_path name := by
  match fuel with
  | 0 => simp [generate_enum_from_one_of] at h
  | fuel + 1 =>
    simp only [generate_enum_from_one_of] at h
    split at h
    · simp at h
    · obtain ⟨-, h2⟩ := Prod.mk.injEq .. ▸ h
      cases h2
      rfl

theorem generate_object_ok_name (fuel : Nat) (spec : Spec) (db : ObjectDatabase)
    (definition_path : List String) (name : String) (s : ObjectSchema) (nmg : NameMapping)
    (db' : ObjectDatabase) (d : ObjectDefinition)
    (h : generate_object fuel spec db definition_path name s nmg = (db', .ok d)) :
    get_object_name d = nmg.name_to_struct_name definition_path name
      ∨ get_object_name d = name := by
  match fuel with
  | 0 => simp [generate_object] at h
  | fuel + 1 =>
    simp only [generate_object] at h
    split at h
    · simp at h
    · split at h
      · exact Or.inl (generate_enum_from_any_ok_name fuel spec db definition_path name s nmg db' d h)
      · split at h
        · exact Or.inl (generate_enum_from_one_of_ok_name fuel spec db definition_path name s nmg db' d h)
        · split at h
          · exact Or.inl (generate_struct_ok_name fuel spec db definition_path name s nmg db' d h)
          all_goals first
            | (split at h
               · obtain ⟨-, h2⟩ := Prod.mk.injEq .. ▸ h
                 cases h2
                 exact Or.inr rfl
               · simp at h)
            | simp at h

/-! Fixtures for the concrete scenarios. -/

/-- An entirely empty schema object: no type, no const, no anyOf, oneOf or
allOf. -/
def empty_schema : ObjectSchema := .mk none none false [] [] [] [] [] none

/-- An object-typed schema with no title and no properties. -/
def plain_object_schema : ObjectSchema := .mk none (some (.single .object)) false [] [] [] [] [] none

/-- A document with no components section. -/
def no_components_spec : Spec := { components := none, paths := [] }

/-- The document of the concrete scenario of spec section 8: exactly one
component named Empty carrying an entirely empty schema. -/
def empty_component_spec : Spec := { components := some [("Empty", .obj empty_schema)], paths := [] }

/-- Claim C3 (code_bug evidence): the spec and the repository test
components/properties.rs empty_component expect resolution of the document
with only components.schemas.Empty as an empty schema to produce a database
with a single opaque entry named Empty.  The code does finish without
aborting, but generate_object rejects the empty schema with the error Object
is empty and the walker skips the component, so the run finishes with an
EMPTY Object Database containing no entry at all. -/
theorem claim_C3_empty_component_database_is_empty :
    generate_components 10 empty_component_spec Config.new = .ok [] := by
  rfl

/-- A schema with title Cat and type object. -/
def titled_cat_schema : ObjectSchema := .mk (some "Cat") (some (.single .object)) false [] [] [] [] [] none

/-- A document with a single component schema stored under the given key. -/
def single_component_spec (key : String) (schema : ObjectSchema) : Spec :=
  { components := some [(key, .obj schema)], paths := [] }

/-- Claim C8: a component schema that declares a title is stored under the
canonical name derived from the title (case-normalized, override-applied),
not from the component key: for every component key, in particular
cat_model, the schema titled Cat lands in the database under Cat, never
under a name derived from the key such as CatModel. -/
theorem claim_C8_title_precedence (key : String) :
    generate_components 10 (single_component_spec key titled_cat_schema) Config.new
      = .ok [("Cat", .Struct { used_modules := serde_modules, name := "Cat", properties := [] })] := by
  rfl

/-- Claim C10: when get_or_create_object has inserted its empty placeholder
Struct and the subsequent generate_object call fails (for example because
the schema is empty, or declares multiple types), get_or_create_object
returns an error but does not remove the placeholder: the database returned
along the error still maps the canonical name to the empty placeholder
Struct. -/
theorem claim_C10_placeholder_survives_error (fuel : Nat) (spec : Spec) (db : ObjectDatabase)
    (definition_path : List String) (name : String) (s : ObjectSchema) (nmg : NameMapping)
    (habs : db_get db (nmg.name_to_struct_name definition_path name) = none)
    (hbad : is_object_empty s = true ∨
      (s.any_of = [] ∧ s.one_of = [] ∧ ∃ ts, s.schema_type = some (.multiple ts))) :
    ∃ e db',
      get_or_create_object (fuel + 2) spec db definition_path name s nmg = (db', .error e) ∧
      db_get db' (nmg.name_to_struct_name definition_path name)
        = some (hull_struct (nmg.name_to_struct_name definition_path name)) := by
  obtain ⟨e, hgen⟩ := generate_object_rejects fuel spec
    (db_insert db (nmg.name_to_struct_name definition_path name)
      (hull_struct (nmg.name_to_struct_name definition_path name)))
    definition_path (nmg.name_to_struct_name definition_path name) s nmg hbad
  refine ⟨"Failed to generate object: " ++ e,
    db_insert db (nmg.name_to_struct_name definition_path name)
      (hull_struct (nmg.name_to_struct_name definition_path name)), ?_, ?_⟩
  · exact get_or_create_object_fresh_err (fuel + 1) spec db _ definition_path name s nmg e habs hgen
  · exact lookup_insert_self db _ _

/-- Witness for claim C10 at a concrete input: the name Empty with the empty
schema, on an empty database. -/
theorem claim_C10_witness :
    (db_get [] (NameMapping.new.name_to_struct_name get_components_base_path "Empty") = none) ∧
    (is_object_empty empty_schema = true) ∧
    ∃ e db',
      get_or_create_object 2 no_components_spec [] get_components_base_path "Empty"
        empty_schema NameMapping.new = (db', .error e) ∧
      db_get db' (NameMapping.new.name_to_struct_name get_components_base_path "Empty")
        = some (hull_struct (NameMapping.new.name_to_struct_name get_components_base_path "Empty")) :=
  ⟨rfl, rfl,
    claim_C10_placeholder_survives_error 0 no_components_spec [] get_components_base_path
      "Empty" empty_schema NameMapping.new rfl (Or.inl rfl)⟩

/-- A name mapping carrying one struct-name override whose value is not in
Pascal case, so re-applying the mapping to its own output changes the name
again. -/
def c2_name_mapping : NameMapping :=
  { NameMapping.new with struct_mapping := [("/#/components/schemas/Cat", "snake_name")] }

/-- The document for the C2 counterexample. -/
def c2_spec : Spec := { components := some [("Cat", .obj plain_object_schema)], paths := [] }

/-- The placeholder left behind under the canonical name in the C2
counterexample. -/
def c2_hull : ObjectDefinition := hull_struct "snake_name"

/-- The definition the first call of the C2 counterexample returns. -/
def c2_final : ObjectDefinition :=
  .Struct { used_modules := serde_modules, name := "SnakeName", properties := [] }

/-- Counterexample to claim C2 as stated: with a struct-name override whose
value is not stable under re-application, the first call resolves the
component Cat under canonical name snake_name but stores the finished
definition under SnakeName, leaving the placeholder under the canonical
name.  The second call from the same canonical name does return the stored
entry unchanged and leaves the database unmodified, but the two call sites
observe structurally different definitions (the finished SnakeName struct
versus the leftover empty snake_name hull), and the database holds two
entries, not one. -/
theorem claim_C2_counterexample :
    get_or_create_object 10 c2_spec [] get_components_base_path "Cat" plain_object_schema
        c2_name_mapping
      = ([("snake_name", c2_hull), ("SnakeName", c2_final)], .ok c2_final) ∧
    get_or_create_object 10 c2_spec [("snake_name", c2_hull), ("SnakeName", c2_final)]
        get_components_base_path "Cat" plain_object_schema c2_name_mapping
      = ([("snake_name", c2_hull), ("SnakeName", c2_final)], .ok c2_hull) ∧
    c2_hull ≠ c2_final ∧
    db_count_key [("snake_name", c2_hull), ("SnakeName", c2_final)] "snake_name"
      + db_count_key [("snake_name", c2_hull), ("SnakeName", c2_final)] "SnakeName" = 2 :=
  ⟨rfl, rfl, by decide, by decide⟩

/-- Claim C2 as amended: provided the canonical name is stable under
re-application of the name mapping (which holds in particular for the empty
mapping, since Pascal-casing is idempotent on the names it produces), a
second call to get_or_create_object for the same canonical name returns the
previously stored definition unchanged, creates no new database entry and
leaves the database unmodified, so both call sites observe the identical
definition. -/
theorem claim_C2_memoized_second_resolution (fuel fuel2 : Nat) (spec : Spec)
    (db db1 : ObjectDatabase) (definition_path : List String) (name : String)
    (s : ObjectSchema) (nmg : NameMapping) (d : ObjectDefinition)
    (hstable : nmg.name_to_struct_name definition_path
        (nmg.name_to_struct_name definition_path name)
      = nmg.name_to_struct_name definition_path name)
    (h : get_or_create_object (fuel + 1) spec db definition_path name s nmg = (db1, .ok d)) :
    get_or_create_object (fuel2 + 1) spec db1 definition_path name s nmg = (db1, .ok d) := by
  cases hdb : db_get db (nmg.name_to_struct_name definition_path name) with
  | some o =>
    rw [get_or_create_object_memo fuel spec db definition_path name s nmg o hdb] at h
    have h1 : db = db1 := congrArg Prod.fst h
    have h2 : o = d := by
      have := congrArg Prod.snd h
      simpa using this
    subst h1
    subst h2
    exact get_or_create_object_memo fuel2 spec db definition_path name s nmg o hdb
  | none =>
    have h' : lookup_assoc db (nmg.name_to_struct_name definition_path name) = none := hdb
    simp only [get_or_create_object, hdb, db_contains, contains_assoc, h', Option.isSome_none,
      Bool.false_eq_true, if_false] at h
    split at h
    · next db2 created heq =>
      have h1 : db_insert db2 (get_object_name created) created = db1 := congrArg Prod.fst h
      have h2 : created = d := by
        have := congrArg Prod.snd h
        simpa using this
      have hname : get_object_name created = nmg.name_to_struct_name definition_path name := by
        rcases generate_object_ok_name fuel spec _ definition_path
            (nmg.name_to_struct_name definition_path name) s nmg db2 created heq with hc | hc
        · rw [hc, hstable]
        · exact hc
      have hget : db_get db1 (nmg.name_to_struct_name definition_path name) = some d := by
        rw [← h1, ← hname, h2]
        exact lookup_insert_self db2 (get_object_name d) d
      exact get_or_create_object_memo fuel2 spec db1 definition_path name s nmg d hget
    · simp at h

/-- A document whose only component is Cat with a plain object schema. -/
def cat_component_spec : Spec := { components := some [("Cat", .obj plain_object_schema)], paths := [] }

/-- The finished definition stored for Cat with the empty name mapping. -/
def cat_final : ObjectDefinition :=
  .Struct { used_modules := serde_modules, name := "Cat", properties := [] }

/-- Witness for the amended claim C2 at a concrete input: with the empty
name mapping the component Cat is materialized once, and the second call
returns the stored definition unchanged on an unchanged database. -/
theorem claim_C2_witness :
    (NameMapping.new.name_to_struct_name get_components_base_path
        (NameMapping.new.name_to_struct_name get_components_base_path "Cat")
      = NameMapping.new.name_to_struct_name get_components_base_path "Cat") ∧
    get_or_create_object 10 cat_component_spec [] get_components_base_path "Cat"
        plain_object_schema NameMapping.new = ([("Cat", cat_final)], .ok cat_final) ∧
    get_or_create_object 5 cat_component_spec [("Cat", cat_final)] get_components_base_path "Cat"
        plain_object_schema NameMapping.new = ([("Cat", cat_final)], .ok cat_final) :=
  ⟨rfl, rfl,
    claim_C2_memoized_second_resolution 9 4 cat_component_spec [] [("Cat", cat_final)]
      get_components_base_path "Cat" plain_object_schema NameMapping.new cat_final rfl rfl⟩

/-- A subschema is anonymous when it is an inline object with neither a
title nor a schema type, so no variant name can be derived for it. -/
def is_anonymous_inline : SchemaOrRef → Bool
  | .obj s => s.title.isNone && s.schema_type.isNone
  | .ref _ => false

/-- An anyOf or oneOf subschema list containing an anonymous inline member
never yields an Ok enum-value map: the enum-value loop either aborts on the
anonymous member with the Anonymous enum value error, or fails earlier, but
never returns Ok. -/
theorem generate_enum_values_anonymous_not_ok :
    ∀ (elems : List SchemaOrRef) (fuel : Nat) (spec : Spec) (db : ObjectDatabase)
      (definition_path : List String) (name : String) (values : List (String × EnumValue))
      (nmg : NameMapping),
      (∃ e ∈ elems, is_anonymous_inline e = true) →
      ((generate_enum_values fuel spec db definition_path name elems values nmg).2).isOk = false
  | elems, 0, spec, db, dp, name, values, nmg, _ => by
    simp [generate_enum_values, Except.isOk, Except.toBool]
  | [], fuel + 1, spec, db, dp, name, values, nmg, hex => by
    obtain ⟨e, he, -⟩ := hex
    exact absurd he (List.not_mem_nil e)
  | hd :: rest, fuel + 1, spec, db, dp, name, values, nmg, hex => by
    obtain ⟨e, he, hanon⟩ := hex
    rcases List.mem_cons.mp he with rfl | hrest
    · match e, hanon with
      | .obj s, hanon =>
        have ht : s.title = none := by
          cases h : s.title <;> simp [is_anonymous_inline, h] at hanon ⊢
        have hst : s.schema_type = none := by
          cases h : s.schema_type <;> simp [is_anonymous_inline, h] at hanon ⊢
        simp [generate_enum_values, get_object_or_ref_struct_name, ht, hst, Except.isOk, Except.toBool]
    · match hd with
      | .ref rp =>
        cases hres : SchemaOrRef.resolve spec (.ref rp) with
        | error err =>
          simp only [generate_enum_values, hres]
          exact generate_enum_values_anonymous_not_ok rest fuel spec db dp name values nmg
            ⟨e, hrest, hanon⟩
        | ok os =>
          cases hbase : get_base_path_to_ref rp with
          | error e2 =>
            simp only [generate_enum_values, hres, hbase]
            exact generate_enum_values_anonymous_not_ok rest fuel spec db dp name values nmg
              ⟨e, hrest, hanon⟩
          | ok bp =>
            cases hname : get_object_or_ref_struct_name spec bp nmg (.ref rp) with
            | error e3 => simp [generate_enum_values, hres, hbase, hname, Except.isOk, Except.toBool]
            | ok pr =>
              rcases hty : get_type_from_schema fuel spec db bp os
                  (some (nmg.name_to_struct_name bp (pr.2 ++ "Value"))) nmg with ⟨db2, res⟩
              cases res with
              | ok td =>
                simp only [generate_enum_values, hres, hbase, hname, hty]
                exact generate_enum_values_anonymous_not_ok rest fuel spec db2 dp name _ nmg
                  ⟨e, hrest, hanon⟩
              | error e4 =>
                simp only [generate_enum_values, hres, hbase, hname, hty]
                exact generate_enum_values_anonymous_not_ok rest fuel spec db2 dp name values nmg
                  ⟨e, hrest, hanon⟩
      | .obj s =>
        cases hname : get_object_or_ref_struct_name spec dp nmg (.obj s) with
        | error e3 => simp [generate_enum_values, hname, Except.isOk, Except.toBool]
        | ok pr =>
          rcases hty : get_type_from_schema fuel spec db dp s
              (some (nmg.name_to_struct_name dp (pr.2 ++ "Value"))) nmg with ⟨db2, res⟩
          cases res with
          | ok td =>
            simp only [generate_enum_values, hname, hty]
            exact generate_enum_values_anonymous_not_ok rest fuel spec db2 dp name _ nmg
              ⟨e, hrest, hanon⟩
          | error e4 =>
            simp only [generate_enum_values, hname, hty]
            exact generate_enum_values_anonymous_not_ok rest fuel spec db2 dp name values nmg
              ⟨e, hrest, hanon⟩

/-- A subschema whose reference fails to resolve is skipped: the enum-value
loop continues with the remaining subschemas, database and accumulated
values unchanged. -/
theorem generate_enum_values_skips_unresolvable (fuel : Nat) (spec : Spec) (db : ObjectDatabase)
    (definition_path : List String) (name : String) (ref_path err : String)
    (rest : List SchemaOrRef) (values : List (String × EnumValue)) (nmg : NameMapping)
    (hres : SchemaOrRef.resolve spec (.ref ref_path) = .error err) :
    generate_enum_values (fuel + 1) spec db definition_path name (.ref ref_path :: rest) values nmg
      = generate_enum_values fuel spec db definition_path name rest values nmg := by
  simp only [generate_enum_values, hres]

/-- A schema with title Good and type string. -/
def good_schema : ObjectSchema := .mk (some "Good") (some (.single .string)) false [] [] [] [] [] none

/-- An anyOf schema mixing a resolvable titled variant with an anonymous
one. -/
def mix_schema : ObjectSchema :=
  .mk none none false [.obj good_schema, .obj empty_schema] [] [] [] [] none

/-- Counterexample to claim C4 as stated: the claim says an anonymous
subschema is skipped with a logged error and the enum is still returned with
the remaining resolvable variants.  In the code the anonymous subschema
makes generate_enum_from_any return an Err for the WHOLE enum, even though
the variant Good alone resolves fine (second conjunct). -/
theorem claim_C4_counterexample :
    (generate_enum_from_any 10 no_components_spec [] get_components_base_path "Mix" mix_schema
        NameMapping.new).2
      = .error "Mix Anonymous enum value are not supported \"Unable to determine object name\"" ∧
    (generate_enum_from_any 10 no_components_spec [] get_components_base_path "Mix"
        (.mk none none false [.obj good_schema] [] [] [] [] none) NameMapping.new).2
      = .ok (.Enum { name := "Mix", used_modules := serde_modules,
                     values := [("GoodValue",
                       { name := "GoodValue",
                         value_type := { name := "String", module := none } })] }) :=
  ⟨rfl, rfl⟩

/-- Claim C4 as amended: a subschema from which no variant name can be
derived is a hard error for the WHOLE enum, not just for that variant:
generate_enum_from_any and generate_enum_from_one_of return an Err and no
enum definition.  Only a subschema whose reference fails to RESOLVE is
skipped with a logged error, generation continuing with the remaining
variants (third conjunct). -/
theorem claim_C4_anonymous_variant_aborts_enum (fuel f2 : Nat) (spec : Spec)
    (db : ObjectDatabase) (definition_path : List String) (name : String) (s : ObjectSchema)
    (nmg : NameMapping) (ref_path err : String) (rest : List SchemaOrRef)
    (values : List (String × EnumValue))
    (hanon_any : ∃ e ∈ s.any_of, is_anonymous_inline e = true)
    (hanon_one : ∃ e ∈ s.one_of, is_anonymous_inline e = true)
    (hres : SchemaOrRef.resolve spec (.ref ref_path) = .error err) :
    ((generate_enum_from_any fuel spec db definition_path name s nmg).2).isOk = false ∧
    ((generate_enum_from_one_of fuel spec db definition_path name s nmg).2).isOk = false ∧
    generate_enum_values (f2 + 1) spec db definition_path name (.ref ref_path :: rest) values nmg
      = generate_enum_values f2 spec db definition_path name rest values nmg := by
  refine ⟨?_, ?_,
    generate_enum_values_skips_unresolvable f2 spec db definition_path name ref_path err
      rest values nmg hres⟩
  · match fuel with
    | 0 => simp [generate_enum_from_any, Except.isOk, Except.toBool]
    | fuel + 1 =>
      simp only [generate_enum_from_any]
      rcases hv : generate_enum_values fuel spec db
          (definition_path ++ [nmg.name_to_struct_name definition_path name]) name
          s.any_of [] nmg with ⟨db2, res⟩
      cases res with
      | ok vals =>
        have hno := generate_enum_values_anonymous_not_ok s.any_of fuel spec db
          (definition_path ++ [nmg.name_to_struct_name definition_path name]) name [] nmg
          hanon_any
        rw [hv] at hno
        simp [Except.isOk, Except.toBool] at hno
      | error e => simp [hv, Except.isOk, Except.toBool]
  · match fuel with
    | 0 => simp [generate_enum_from_one_of, Except.isOk, Except.toBool]
    | fuel + 1 =>
      simp only [generate_enum_from_one_of]
      rcases hv : generate_enum_values fuel spec db
          (definition_path ++ [nmg.name_to_struct_name definition_path name]) name
          s.one_of [] nmg with ⟨db2, res⟩
      cases res with
      | ok vals =>
        have hno := generate_enum_values_anonymous_not_ok s.one_of fuel spec db
          (definition_path ++ [nmg.name_to_struct_name definition_path name]) name [] nmg
          hanon_one
        rw [hv] at hno
        simp [Except.isOk, Except.toBool] at hno
      | error e => simp [hv, Except.isOk, Except.toBool]

/-- A schema whose anyOf and oneOf each hold one anonymous inline member. -/
def anon_pair_schema : ObjectSchema :=
  .mk none none false [.obj empty_schema] [.obj empty_schema] [] [] [] none

/-- Witness for the amended claim C4 at concrete inputs. -/
theorem claim_C4_witness :
    (∃ e ∈ anon_pair_schema.any_of, is_anonymous_inline e = true) ∧
    (∃ e ∈ anon_pair_schema.one_of, is_anonymous_inline e = true) ∧
    (SchemaOrRef.resolve no_components_spec (.ref "#/components/schemas/Missing")
      = .error "Failed to resolve object #/components/schemas/Missing") ∧
    (((generate_enum_from_any 5 no_components_spec [] ["#"] "Mix" anon_pair_schema
        NameMapping.new).2).isOk = false ∧
     ((generate_enum_from_one_of 5 no_components_spec [] ["#"] "Mix" anon_pair_schema
        NameMapping.new).2).isOk = false ∧
     generate_enum_values 4 no_components_spec [] ["#"] "Mix"
        [.ref "#/components/schemas/Missing"] [] NameMapping.new
       = generate_enum_values 3 no_components_spec [] ["#"] "Mix" [] [] NameMapping.new) :=
  ⟨by decide, by decide, rfl,
    claim_C4_anonymous_variant_aborts_enum 5 3 no_components_spec [] ["#"] "Mix"
      anon_pair_schema NameMapping.new "#/components/schemas/Missing"
      "Failed to resolve object #/components/schemas/Missing" [] []
      (by decide) (by decide) rfl⟩

/-- With duplicate-free keys, every entry carrying the looked-up key holds
the looked-up value. -/
theorem lookup_unique {α : Type} :
    ∀ (l : List (String × α)) (key : String) (v : α),
      (l.map Prod.fst).Nodup → lookup_assoc l key = some v →
      ∀ kv ∈ l, kv.1 = key → kv.2 = v
  | [], key, v, _, hl, kv, hkv, _ => absurd hkv (List.not_mem_nil kv)
  | (k, w) :: tl, key, v, hnodup, hl, kv, hkv, hkey => by
    have hnodup' : (k :: tl.map Prod.fst).Nodup := by simpa using hnodup
    have hpair := List.nodup_cons.mp hnodup'
    by_cases hk : k = key
    · simp only [lookup_assoc, if_pos hk] at hl
      rcases List.mem_cons.mp hkv with rfl | htl
      · simpa using hl
      · exfalso
        apply hpair.1
        rw [hk, ← hkey]
        exact List.mem_map_of_mem Prod.fst htl
    · simp only [lookup_assoc, if_neg hk] at hl
      rcases List.mem_cons.mp hkv with rfl | htl
      · exact absurd hkey hk
      · exact lookup_unique tl key v hpair.2 hl kv htl hkey

/-- Folding response_enum_step never creates a values entry for a key all of
whose entities carry no content type. -/
theorem response_enum_fold_no_entry (nmg : NameMapping)
    (response_enum_definition_path : List String) (key : String) :
    ∀ (l : List (String × ResponseEntity)) (acc : EnumDefinition),
      (∀ kv ∈ l, kv.1 = key → kv.2.content = []) →
      lookup_assoc acc.values key = none →
      lookup_assoc ((l.foldl (response_enum_step nmg response_enum_definition_path) acc).values)
          key = none
  | [], acc, _, hacc => hacc
  | (k', e') :: tl, acc, hall, hacc => by
    simp only [List.foldl_cons]
    refine response_enum_fold_no_entry nmg response_enum_definition_path key tl _
      (fun kv hkv hkey => hall kv (List.mem_cons_of_mem _ hkv) hkey) ?_
    by_cases hk : k' = key
    · have hcontent : e'.content = [] := hall (k', e') (List.mem_cons_self _ _) hk
      simp [response_enum_step, hcontent, hacc]
    · rcases hc : e'.content with - | ⟨hd, tl2⟩
      · simpa [response_enum_step, hc] using hacc
      · rcases tl2 with - | ⟨hd2, tl3⟩
        · obtain ⟨ct, tmt⟩ := hd
          cases tmt with
          | ApplicationJson ot =>
            cases ot <;>
              simpa [response_enum_step, hc, lookup_insert_ne _ k' key _ hk] using hacc
          | TextPlain =>
            simpa [response_enum_step, hc, lookup_insert_ne _ k' key _ hk] using hacc
        · simpa [response_enum_step, hc, lookup_insert_ne _ k' key _ hk] using hacc

/-- The responses of the C5 scenario: one status 204 with no content types. -/
def c5_responses : List (String × ResponseSpec) := [("204", { content := [] })]

/-- The response entities generate_responses produces for the C5 scenario. -/
def c5_entities : List (String × ResponseEntity) :=
  [("204", { canonical_status_code := "No Content", content := [] })]

/-- Counterexample to claim C5 as stated: status 204 parses to the canonical
name No Content and declares zero content types, so the claim promises a
payload-free variant for it in the operation response enum.  The code
instead skips the status entirely: the generated response enum holds no
entry under 204 and consists of the UndefinedResponse catch-all alone. -/
theorem claim_C5_counterexample :
    generate_responses 10 no_components_spec [] ["/test"] NameMapping.new c5_responses "get_test"
      = ([], .ok c5_entities) ∧
    lookup_assoc (generate_operation_response_enum NameMapping.new
        ["/test", "GetTestResponseType"] "GetTestResponseType" c5_entities).values "204" = none ∧
    (generate_operation_response_enum NameMapping.new
        ["/test", "GetTestResponseType"] "GetTestResponseType" c5_entities).values
      = [("UndefinedResponse",
          { name := "UndefinedResponse",
            value_type := { name := "reqwest::Response",
                            module := some { name := "reqwest", path := "" } } })] :=
  ⟨rfl, rfl, rfl⟩

/-- Claim C5 as amended: a response status with zero declared content types
produces NO variant in the operation response enum: the status is omitted
from the enum altogether (the zero arm of the content-length match is a
continue), and such responses are left to the catch-all UndefinedResponse
variant at runtime. -/
theorem claim_C5_empty_content_status_has_no_variant (nmg : NameMapping)
    (response_enum_definition_path : List String) (response_enum_name : String)
    (entities : List (String × ResponseEntity)) (key : String) (entity : ResponseEntity)
    (hmem : lookup_assoc entities key = some entity)
    (hempty : entity.content = [])
    (hnodup : (entities.map Prod.fst).Nodup)
    (hkey : key ≠ "UndefinedResponse") :
    lookup_assoc (generate_operation_response_enum nmg response_enum_definition_path
        response_enum_name entities).values key = none := by
  have hall : ∀ kv ∈ entities, kv.1 = key → kv.2.content = [] := by
    intro kv hkv hk
    rw [lookup_unique entities key entity hnodup hmem kv hkv hk]
    exact hempty
  have hfold := response_enum_fold_no_entry nmg response_enum_definition_path key entities
    { name := response_enum_name, used_modules := [], values := [] } hall rfl
  simp only [generate_operation_response_enum]
  rw [lookup_insert_ne _ "UndefinedResponse" key _ (fun h => hkey h.symm)]
  exact hfold

/-- Witness for the amended claim C5 at the concrete 204 scenario. -/
theorem claim_C5_witness :
    (lookup_assoc c5_entities "204"
      = some { canonical_status_code := "No Content", content := [] }) ∧
    lookup_assoc (generate_operation_response_enum NameMapping.new
        ["/test", "GetTestResponseType"] "GetTestResponseType" c5_entities).values "204" = none :=
  ⟨rfl,
    claim_C5_empty_content_status_has_no_variant NameMapping.new
      ["/test", "GetTestResponseType"] "GetTestResponseType" c5_entities "204"
      { canonical_status_code := "No Content", content := [] } rfl rfl
      (by decide) (by decide)⟩

/-- The ignore configuration of the C7 scenario: component A and path
/internal are ignored. -/
def c7_config : Config :=
  { name_mapping := NameMapping.new,
    ignore := { paths := ["/internal"], components := ["A"] } }

/-- A component schema referencing the ignored component A. -/
def b_schema : ObjectSchema :=
  .mk none (some (.single .object)) false [] [] [] [("a", .ref "#/components/schemas/A")] [] none

/-- The document of the C7 scenario. -/
def c7_spec : Spec :=
  { components := some [("A", .obj plain_object_schema), ("B", .obj b_schema)],
    paths := [("/internal", "internal_op"), ("/pets", "list_pets")] }

/-- Counterexample to claim C7 as stated: component A is listed in the
ignore configuration and the walker skips it, yet resolving the non-ignored
component B, whose property references A, materializes A via
get_or_create_object, so an entry named A DOES appear in the finished
Object Database. -/
theorem claim_C7_counterexample :
    c7_config.ignore.component_ignored "A" = true ∧
    ∃ db, generate_components 20 c7_spec c7_config = .ok db ∧ db_contains db "A" = true :=
  ⟨rfl, _, rfl, rfl⟩

/-- The component walker skips every component when all are ignored,
touching the database not at all. -/
theorem generate_components_loop_all_ignored (fuel : Nat) (spec : Spec) (config : Config) :
    ∀ (comps : List (String × SchemaOrRef)) (db : ObjectDatabase),
      (∀ kv ∈ comps, config.ignore.component_ignored kv.1 = true) →
      generate_components_loop fuel spec config db comps = db
  | [], db, _ => rfl
  | (k, r) :: tl, db, hall => by
    have hk : config.ignore.component_ignored k = true := hall (k, r) (List.mem_cons_self _ _)
    simp only [generate_components_loop, hk, if_true]
    exact generate_components_loop_all_ignored fuel spec config tl db
      (fun kv hkv => hall kv (List.mem_cons_of_mem _ hkv))

/-- Claim C7 as amended: a component listed in the ignore configuration is
never itself seeded by the Component Walker (when every component of the
document is ignored the resulting database is empty), although an ignored
component can still be materialized when a non-ignored schema references it;
and no generated operation is produced for a path listed in the ignore
configuration. -/
theorem claim_C7_ignore_rules (fuel : Nat) (spec : Spec) (config : Config) (p : String)
    (hall : ∀ kv ∈ spec.components.getD [], config.ignore.component_ignored kv.1 = true)
    (hp : config.ignore.path_ignored p = true) :
    generate_components fuel spec config = .ok [] ∧
    ∀ kv ∈ generate_paths spec config, kv.1 ≠ p := by
  constructor
  · match hc : spec.components with
    | none => simp [generate_components, hc]
    | some comps =>
      rw [hc] at hall
      simp only [Option.getD_some] at hall
      simp only [generate_components, hc]
      rw [generate_components_loop_all_ignored fuel spec config comps [] hall]
  · intro kv hkv he
    rcases List.mem_filter.mp hkv with ⟨-, hfilter⟩
    rw [he, hp] at hfilter
    simp at hfilter

/-- An ignore configuration listing every component of the C7 document. -/
def c7_all_config : Config :=
  { name_mapping := NameMapping.new,
    ignore := { paths := ["/internal"], components := ["A", "B"] } }

/-- Witness for the amended claim C7 at a concrete input. -/
theorem claim_C7_witness :
    (∀ kv ∈ c7_spec.components.getD [], c7_all_config.ignore.component_ignored kv.1 = true) ∧
    (c7_all_config.ignore.path_ignored "/internal" = true) ∧
    (generate_components 20 c7_spec c7_all_config = .ok [] ∧
     ∀ kv ∈ generate_paths c7_spec c7_all_config, kv.1 ≠ "/internal") :=
  ⟨by decide, by decide,
    claim_C7_ignore_rules 20 c7_spec c7_all_config "/internal" (by decide) (by decide)⟩

/-- A successfully created property carries the required flag it was asked
for and the wire name it was created from. -/
theorem get_or_create_property_ok (fuel : Nat) (spec : Spec) (db db' : ObjectDatabase)
    (definition_path : List String) (property_name : String) (property_ref : SchemaOrRef)
    (required : Bool) (nmg : NameMapping) (p : PropertyDefinition)
    (h : get_or_create_property fuel spec db definition_path property_name property_ref
        required nmg = (db', .ok p)) :
    p.required = required ∧ p.real_name = property_name := by
  match fuel with
  | 0 => simp [get_or_create_property] at h
  | fuel + 1 =>
    simp only [get_or_create_property] at h
    split at h
    · simp at h
    · split at h
      · simp at h
      · split at h
        · obtain ⟨-, h2⟩ := Prod.mk.injEq .. ▸ h
          cases h2
          exact ⟨rfl, rfl⟩
        · simp at h

/-- The property loop only accumulates properties whose required flag agrees
with membership of their wire name in the required list. -/
theorem generate_struct_properties_required (spec : Spec) (nmg : NameMapping)
    (required_names : List String) :
    ∀ (props : List (String × SchemaOrRef)) (fuel : Nat) (db db' : ObjectDatabase)
      (definition_path : List String) (acc out : List (String × PropertyDefinition)),
      (∀ kv ∈ acc, kv.2.required = required_names.contains kv.2.real_name) →
      generate_struct_properties fuel spec db definition_path props required_names acc nmg
        = (db', .ok out) →
      ∀ kv ∈ out, kv.2.required = required_names.contains kv.2.real_name
  | props, 0, db, db', dp, acc, out, hacc, h => by simp [generate_struct_properties] at h
  | [], fuel + 1, db, db', dp, acc, out, hacc, h => by
    simp only [generate_struct_properties] at h
    obtain ⟨-, h2⟩ := Prod.mk.injEq .. ▸ h
    cases h2
    exact hacc
  | (property_name, property_ref) :: rest, fuel + 1, db, db', dp, acc, out, hacc, h => by
    simp only [generate_struct_properties] at h
    split at h
    · next db2 e heq =>
      exact generate_struct_properties_required spec nmg required_names rest fuel db2 db' dp
        acc out hacc h
    · next db2 p heq =>
      obtain ⟨hreq, hreal⟩ := get_or_create_property_ok fuel spec db db2 dp property_name
        property_ref (required_names.contains property_name) nmg p heq
      have hp : p.required = required_names.contains p.real_name := by rw [hreq, hreal]
      exact generate_struct_properties_required spec nmg required_names rest fuel db2 db' dp
        _ out
        (mem_insert_assoc_preserves
          (fun pd => pd.required = required_names.contains pd.real_name) acc p.name p hacc hp)
        h

/-- Claim C9: every property of every generated struct is marked required
exactly when its wire name appears in the schema's required array, and the
rendered field declaration of StructDefinition::to_string wraps the type in
Option exactly when the property is not required. -/
theorem claim_C9_required_iff_listed (fuel : Nat) (spec : Spec) (db db' : ObjectDatabase)
    (definition_path : List String) (name : String) (s : ObjectSchema) (nmg : NameMapping)
    (sd : StructDefinition)
    (h : generate_struct fuel spec db definition_path name s nmg = (db', .ok (.Struct sd))) :
    ∀ kv ∈ sd.properties,
      (kv.2.required = s.required.contains kv.2.real_name) ∧
      (kv.2.required = false →
        property_decl_string true kv.2
          = serde_alias_string true kv.2
            ++ ("pub " ++ kv.2.name ++ ": Option<" ++ kv.2.type_name ++ ">,\n")) ∧
      (kv.2.required = true →
        property_decl_string true kv.2
          = serde_alias_string true kv.2
            ++ ("pub " ++ kv.2.name ++ ": " ++ kv.2.type_name ++ ",\n")) := by
  have hprops : ∀ kv ∈ sd.properties, kv.2.required = s.required.contains kv.2.real_name := by
    match fuel with
    | 0 => simp [generate_struct] at h
    | fuel + 1 =>
      simp only [generate_struct] at h
      split at h
      · simp at h
      · next db2 out heq =>
        obtain ⟨-, h2⟩ := Prod.mk.injEq .. ▸ h
        have h3 : ObjectDefinition.Struct
            { name := nmg.name_to_struct_name definition_path name, properties := out,
              used_modules := serde_modules } = .Struct sd := by
          simpa using h2
        have h4 :
            ({ name := nmg.name_to_struct_name definition_path name, properties := out,
               used_modules := serde_modules } : StructDefinition) = sd := by
          injection h3
        have h5 : sd.properties = out := by rw [← h4]
        rw [h5]
        exact generate_struct_properties_required spec nmg s.required s.properties fuel db db2
          (definition_path ++ [nmg.name_to_struct_name definition_path name]) [] out
          (fun kv hkv => absurd hkv (List.not_mem_nil kv)) heq
  intro kv hkv
  refine ⟨hprops kv hkv, ?_, ?_⟩
  · intro hreq
    simp [property_decl_string, hreq]
  · intro hreq
    simp [property_decl_string, hreq]

/-- The schema of the C9 witness: two properties, one listed as required. -/
def c9_schema : ObjectSchema :=
  .mk none (some (.single .object)) false [] [] []
    [("req_prop", .obj (.mk none (some (.single .string)) false [] [] [] [] [] none)),
     ("opt_prop", .obj (.mk none (some (.single .integer)) false [] [] [] [] [] none))]
    ["req_prop"] none

/-- The struct the C9 witness scenario generates. -/
def c9_struct : StructDefinition :=
  { used_modules := serde_modules,
    name := "Thing",
    properties :=
      [("req_prop",
        { name := "req_prop", real_name := "req_prop", type_name := "String",
          module := none, required := true }),
       ("opt_prop",
        { name := "opt_prop", real_name := "opt_prop", type_name := "i32",
          module := none, required := false })] }

/-- Witness for claim C9 at a concrete input. -/
theorem claim_C9_witness :
    generate_struct 10 no_components_spec [] ["#"] "Thing" c9_schema NameMapping.new
      = ([], .ok (.Struct c9_struct)) ∧
    ∀ kv ∈ c9_struct.properties,
      (kv.2.required = c9_schema.required.contains kv.2.real_name) ∧
      (kv.2.required = false →
        property_decl_string true kv.2
          = serde_alias_string true kv.2
            ++ ("pub " ++ kv.2.name ++ ": Option<" ++ kv.2.type_name ++ ">,\n")) ∧
      (kv.2.required = true →
        property_decl_string true kv.2
          = serde_alias_string true kv.2
            ++ ("pub " ++ kv.2.name ++ ": " ++ kv.2.type_name ++ ",\n")) :=
  ⟨rfl,
    claim_C9_required_iff_listed 10 no_components_spec [] [] ["#"] "Thing" c9_schema
      NameMapping.new c9_struct rfl⟩

/-- The brace-delimited path segments of a URL template, stripped of their
braces, in path order. -/
def path_parameter_segments (path : String) : List String :=
  ((rust_split '/' path).filter is_path_parameter).map strip_braces

/-- The canonical property name generate_path_parameter_code assigns to a
path segment. -/
def path_parameter_property_name (definition_path : List String) (nmg : NameMapping)
    (function_name seg : String) : String :=
  nmg.name_to_property_name
    (definition_path ++ [nmg.name_to_struct_name definition_path (function_name ++ "PathParameters")])
    seg

/-- The URL template of the C6 scenario, with two path parameters. -/
def c6_path : String := "/pets/\x7bowner_id\x7d/\x7bpet_id\x7d"

/-- The path-parameter code generated for the C6 scenario. -/
def c6_code : PathParameterCode :=
  generate_path_parameter_code [c6_path] NameMapping.new "get_pet" c6_path

/-- Counterexample to claim C6 as stated: the positional format string lists
its placeholders in path order, but the substituted arguments iterate the
keys of a Rust HashMap, whose iteration order is unspecified; the reversed
order is such a legal iteration order, and under it the arguments do NOT
follow path order for the two-parameter template of the scenario. -/
theorem claim_C6_counterexample :
    ∃ iteration_order : List (String × PropertyDefinition),
      iteration_order.Perm c6_code.parameters_struct.properties ∧
      path_parameter_arguments c6_code iteration_order
        ≠ path_parameter_arguments c6_code c6_code.parameters_struct.properties :=
  ⟨c6_code.parameters_struct.properties.reverse,
    (c6_code.parameters_struct.properties).reverse_perm, by decide⟩

/-- Mapping a pair-building function and then taking first components is
the same as mapping the key function alone. -/
theorem map_fst_pair_map {A B : Type} (l : List A) (f : A → String) (g : A → B) :
    (l.map (fun x => (f x, g x))).map Prod.fst = l.map f := by
  simp [List.map_map, Function.comp_def]

/-- Claim C6 as amended: every brace-delimited segment of the URL template
becomes a required, String-typed property of the path-parameter struct, in
path order (provided the derived property names are distinct, so the hash
map keeps them all); the template is rewritten into a positional format
string whose placeholders appear in path order; and the substituted
arguments enumerate exactly those properties, but in the parameter map's
unspecified iteration order (an arbitrary permutation), not necessarily in
path order. -/
theorem claim_C6_path_parameter_struct (definition_path : List String) (nmg : NameMapping)
    (function_name path : String) (iteration_order : List (String × PropertyDefinition))
    (hnodup : ((path_parameter_segments path).map
        (path_parameter_property_name definition_path nmg function_name)).Nodup)
    (hperm : iteration_order.Perm
      (generate_path_parameter_code definition_path nmg function_name path).parameters_struct.properties) :
    (generate_path_parameter_code definition_path nmg function_name
          path).parameters_struct.properties
      = (path_parameter_segments path).map (fun seg =>
          (path_parameter_property_name definition_path nmg function_name seg,
           { module := none,
             name := path_parameter_property_name definition_path nmg function_name seg,
             real_name := seg, required := true, type_name := "String" })) ∧
    (generate_path_parameter_code definition_path nmg function_name path).path_format_string
      = String.intercalate "/" ((rust_split '/' path).map
          (fun path_component =>
            if is_path_parameter path_component then String.mk [lbrace, rbrace]
            else path_component)) ∧
    (iteration_order.map Prod.fst).Perm ((path_parameter_segments path).map
      (path_parameter_property_name definition_path nmg function_name)) ∧
    path_parameter_arguments (generate_path_parameter_code definition_path nmg function_name path)
        iteration_order
      = String.intercalate ", " (iteration_order.map (fun kv =>
          nmg.name_to_property_name definition_path "path_parameters" ++ "." ++ kv.1)) := by
  have hprops : (generate_path_parameter_code definition_path nmg function_name
        path).parameters_struct.properties
      = (path_parameter_segments path).map (fun seg =>
          (path_parameter_property_name definition_path nmg function_name seg,
           { module := none,
             name := path_parameter_property_name definition_path nmg function_name seg,
             real_name := seg, required := true, type_name := "String" })) := by
    simp only [generate_path_parameter_code, path_parameter_segments,
      path_parameter_property_name, List.map_map, Function.comp_def]
    apply hash_collect_of_nodup
    rw [map_fst_pair_map]
    simpa [List.map_map, Function.comp_def, path_parameter_segments,
      path_parameter_property_name] using hnodup
  refine ⟨hprops, rfl, ?_, rfl⟩
  have h1 := hperm.map Prod.fst
  rw [hprops] at h1
  simpa [List.map_map, Function.comp_def, path_parameter_segments,
    path_parameter_property_name] using h1

/-- Witness for the amended claim C6 at the concrete two-parameter
template. -/
theorem claim_C6_witness :
    ((path_parameter_segments c6_path).map
      (path_parameter_property_name [c6_path] NameMapping.new "get_pet")).Nodup ∧
    (c6_code.parameters_struct.properties
      = (path_parameter_segments c6_path).map (fun seg =>
          (path_parameter_property_name [c6_path] NameMapping.new "get_pet" seg,
           { module := none,
             name := path_parameter_property_name [c6_path] NameMapping.new "get_pet" seg,
             real_name := seg, required := true, type_name := "String" })) ∧
     c6_code.path_format_string
      = String.intercalate "/" ((rust_split '/' c6_path).map
          (fun path_component =>
            if is_path_parameter path_component then String.mk [lbrace, rbrace]
            else path_component)) ∧
     ((c6_code.parameters_struct.properties).map Prod.fst).Perm
       ((path_parameter_segments c6_path).map
         (path_parameter_property_name [c6_path] NameMapping.new "get_pet")) ∧
     path_parameter_arguments c6_code c6_code.parameters_struct.properties
      = String.intercalate ", " ((c6_code.parameters_struct.properties).map (fun kv =>
          NameMapping.new.name_to_property_name [c6_path] "path_parameters" ++ "." ++ kv.1))) :=
  ⟨by decide,
    claim_C6_path_parameter_struct [c6_path] NameMapping.new "get_pet" c6_path
      c6_code.parameters_struct.properties (by decide) (List.Perm.refl _)⟩

end Opage

namespace Opage

def cname (i : Nat) : String := String.mk ('A' :: List.replicate i 'a')


theorem cname_injective {i j : Nat} (h : cname i = cname j) : i = j := by
  have hd := congrArg (fun s => s.data.length) h
  simp only [cname] at hd
  simpa using hd

theorem split_char_aux_no_sep (sep : Char) :
    ∀ (l acc : List Char), sep ∉ l → split_char_aux sep l acc = [acc.reverse ++ l]
  | [], acc, _ => by simp [split_char_aux]
  | c :: cs, acc, h => by
    have hc : ¬ c = sep := fun he => h (he ▸ List.mem_cons_self c cs)
    simp only [split_char_aux, if_neg hc]
    rw [split_char_aux_no_sep sep cs (c :: acc) (fun hm => h (List.mem_cons_of_mem _ hm))]
    simp

theorem split_char_aux_append_sep (sep : Char) :
    ∀ (l1 l2 acc : List Char), sep ∉ l1 →
      split_char_aux sep (l1 ++ sep :: l2) acc = (acc.reverse ++ l1) :: split_char_aux sep l2 []
  | [], l2, acc, _ => by simp [split_char_aux]
  | c :: cs, l2, acc, h => by
    have hc : ¬ c = sep := fun he => h (he ▸ List.mem_cons_self c cs)
    simp only [List.cons_append, split_char_aux, if_neg hc, List.append_eq]
    rw [split_char_aux_append_sep sep cs l2 (c :: acc) (fun hm => h (List.mem_cons_of_mem _ hm))]
    simp

theorem slash_not_mem_cname_data (i : Nat) : '/' ∉ ('A' :: List.replicate i 'a') := by
  intro hm
  rcases List.mem_cons.mp hm with h | h
  · exact absurd h (by decide)
  · exact absurd (List.eq_of_mem_replicate h) (by decide)

theorem rust_split_ref (i : Nat) :
    rust_split '/' ("#/components/schemas/" ++ cname i)
      = ["#", "components", "schemas", cname i] := by
  have h1 : ("#/components/schemas/" ++ cname i).data
      = ['#'] ++ '/' :: ("components".data ++ '/' :: ("schemas".data ++ '/' ::
          ('A' :: List.replicate i 'a'))) := rfl
  simp only [rust_split, h1]
  rw [split_char_aux_append_sep '/' ['#'] _ [] (by decide),
    split_char_aux_append_sep '/' "components".data _ [] (by decide),
    split_char_aux_append_sep '/' "schemas".data _ [] (by decide),
    split_char_aux_no_sep '/' ('A' :: List.replicate i 'a') [] (slash_not_mem_cname_data i)]
  simp [cname]


theorem word_split_aux_replicate_a :
    ∀ (i : Nat) (acc : List Char), acc.isEmpty = false →
      word_split_aux (List.replicate i 'a') acc = [acc.reverse ++ List.replicate i 'a']
  | 0, acc, h => by
    simp [word_split_aux, h]
  | i + 1, acc, h => by
    simp only [List.replicate_succ, word_split_aux]
    rw [if_neg (by decide), if_neg ?_]
    · rw [word_split_aux_replicate_a i ('a' :: acc) (by simp)]
      simp
    · intro hc
      exact absurd hc.1 (by decide)

theorem to_pascal_cname (i : Nat) : to_pascal (cname i) = cname i := by
  have h1 : word_split_aux ('A' :: List.replicate i 'a') [] = [('A' :: List.replicate i 'a')] := by
    simp only [word_split_aux]
    rw [if_neg (by decide), if_neg ?_]
    · rw [word_split_aux_replicate_a i ['A'] (by simp)]
      simp
    · intro hc
      simp [head_is_lower] at hc
  have h2 : (cname i).data = 'A' :: List.replicate i 'a' := rfl
  rw [to_pascal, h2, h1]
  simp [capitalize_word, cname, List.map_replicate]


theorem lookup_not_mem {α : Type} :
    ∀ (l : List (String × α)) (key : String), key ∉ l.map Prod.fst →
      lookup_assoc l key = none
  | [], key, _ => rfl
  | (k, v) :: tl, key, h => by
    have hk : ¬ k = key := by
      intro he
      exact h (by simp [he])
    simp only [lookup_assoc, if_neg hk]
    exact lookup_not_mem tl key (fun hm => h (by simp [List.mem_cons]; right; simpa using hm))

theorem cname_not_mem_range_map (n j : Nat) (hj : n ≤ j) :
    cname j ∉ ((List.range n).map (fun i => cname i)) := by
  intro hm
  obtain ⟨i, hi, he⟩ := List.mem_map.mp hm
  have h1 := cname_injective he
  have h2 := List.mem_range.mp hi
  omega


theorem lookup_range_map {α : Type} (g : Nat → α) :
    ∀ (n j : Nat), j < n →
      lookup_assoc ((List.range n).map (fun i => (cname i, g i))) (cname j) = some (g j)
  | 0, j, hj => by omega
  | n + 1, j, hj => by
    rw [List.range_succ, List.map_append]
    by_cases hcase : j < n
    · exact lookup_append_left _ _ _ _ (lookup_range_map g n j hcase)
    · have hj' : j = n := by omega
      rw [lookup_append_right]
      · simp [lookup_assoc, hj']
      · apply lookup_not_mem
        intro hm
        have hmem : cname j ∈ (List.range n).map (fun i => cname i) := by
          simpa [List.map_map, Function.comp_def] using hm
        exact cname_not_mem_range_map n j (by omega) hmem

theorem lookup_range_map_none {α : Type} (g : Nat → α) (n j : Nat) (hj : n ≤ j) :
    lookup_assoc ((List.range n).map (fun i => (cname i, g i))) (cname j) = none := by
  apply lookup_not_mem
  intro hm
  have : cname j ∈ (List.range n).map (fun i => cname i) := by
    simpa [List.map_map, Function.comp_def] using hm
  exact cname_not_mem_range_map n j hj this

theorem insert_assoc_append_right {α : Type} :
    ∀ (l1 l2 : List (String × α)) (k : String) (v : α), lookup_assoc l1 k = none →
      insert_assoc (l1 ++ l2) k v = l1 ++ insert_assoc l2 k v
  | [], l2, k, v, _ => rfl
  | (k1, w) :: tl, l2, k, v, h => by
    have hk : ¬ k1 = k := by
      intro he
      simp [lookup_assoc, he] at h
    simp only [lookup_assoc, if_neg hk] at h
    simp only [List.cons_append, insert_assoc, if_neg hk, List.append_eq]
    rw [insert_assoc_append_right tl l2 k v h]

theorem insert_assoc_append_left {α : Type} :
    ∀ (l1 l2 : List (String × α)) (k : String) (v : α), (lookup_assoc l1 k).isSome →
      insert_assoc (l1 ++ l2) k v = insert_assoc l1 k v ++ l2
  | [], l2, k, v, h => by simp [lookup_assoc] at h
  | (k1, w) :: tl, l2, k, v, h => by
    by_cases hk : k1 = k
    · simp [insert_assoc, hk]
    · simp only [lookup_assoc, if_neg hk] at h
      simp only [List.cons_append, insert_assoc, if_neg hk, List.append_eq]
      rw [insert_assoc_append_left tl l2 k v h]

theorem insert_range_map {α : Type} (g : Nat → α) (v : α) :
    ∀ (n i : Nat), i < n →
      insert_assoc ((List.range n).map (fun j => (cname j, g j))) (cname i) v
        = (List.range n).map (fun j => (cname j, if j = i then v else g j))
  | 0, i, hi => by omega
  | n + 1, i, hi => by
    rw [List.range_succ, List.map_append, List.map_append]
    by_cases hcase : i < n
    · rw [insert_assoc_append_left _ _ _ _ (by rw [lookup_range_map g n i hcase]; rfl)]
      rw [insert_range_map g v n i hcase]
      have hne : ¬ n = i := by omega
      simp [hne]
    · have hi' : i = n := by omega
      rw [insert_assoc_append_right _ _ _ _ (lookup_range_map_none g n i (by omega))]
      congr 1
      · apply List.map_congr_left
        intro j hj
        have hne : ¬ j = i := by
          have := List.mem_range.mp hj
          omega
        simp [hne]
      · simp [insert_assoc, hi']


def cref (i : Nat) : SchemaOrRef := .ref ("#/components/schemas/" ++ cname i)

def cschema (n i : Nat) : ObjectSchema :=
  .mk none (some (.single .object)) false [] [] [] [("next", cref ((i + 1) % n))] [] none

def cycle_spec (n : Nat) : Spec :=
  { components := some ((List.range n).map (fun i => (cname i, .obj (cschema n i)))), paths := [] }

def cycle_prop_of (t : String) : PropertyDefinition :=
  { name := "next", real_name := "next", type_name := t,
    module := some { path := "crate::objects::" ++ NameMapping.new.name_to_module_name t,
                     name := t },
    required := false }

def cycle_struct_of (i : Nat) (t : String) : ObjectDefinition :=
  .Struct { used_modules := serde_modules, name := cname i,
            properties := [("next", cycle_prop_of t)] }

def cycle_struct (n i : Nat) : ObjectDefinition := cycle_struct_of i (cname ((i + 1) % n))

def hulls_db (i : Nat) : ObjectDatabase :=
  (List.range i).map (fun j => (cname j, hull_struct (cname j)))

def mixed_db (n i : Nat) : ObjectDatabase :=
  (List.range n).map
    (fun j => (cname j, if j < i then hull_struct (cname j) else cycle_struct n j))

theorem nm_new_struct_name (p : List String) (x : String) :
    NameMapping.new.name_to_struct_name p x = to_pascal x := rfl

theorem nm_new_next_property_name (p : List String) :
    NameMapping.new.name_to_property_name p "next" = "next" := rfl

theorem cycle_resolve (n j : Nat) (hj : j < n) :
    SchemaOrRef.resolve (cycle_spec n) (cref j) = .ok (cschema n j) := by
  simp only [cref, SchemaOrRef.resolve]
  rw [rust_split_ref j]
  simp only [List.getLast?_cons_cons, List.getLast?_singleton]
  simp only [cycle_spec, Option.getD_some]
  rw [lookup_range_map (fun i => SchemaOrRef.obj (cschema n i)) n j hj]

theorem cycle_base_path (j : Nat) :
    get_base_path_to_ref ("#/components/schemas/" ++ cname j)
      = .ok ["#", "components", "schemas"] := by
  simp only [get_base_path_to_ref]
  rw [rust_split_ref j]
  simp

theorem cycle_ref_name (n j : Nat) (hj : j < n) (p : List String) :
    get_object_or_ref_struct_name (cycle_spec n) p NameMapping.new (cref j)
      = .ok (["#", "components", "schemas"], cname j) := by
  simp only [cref, get_object_or_ref_struct_name]
  rw [show ("#/components/schemas/" ++ cname j) = ("#/components/schemas/" ++ cname j) from rfl]
  have hb := cycle_base_path j
  rw [hb]
  have hr := cycle_resolve n j hj
  simp only [cref] at hr
  rw [hr]
  simp only [cschema, ObjectSchema.title]
  rw [rust_split_ref j]
  simp only [List.getLast?_cons_cons, List.getLast?_singleton]
  rw [nm_new_struct_name, to_pascal_cname]


theorem get_or_create_object_cycle_unfold (n i fuel : Nat) (db db2 : ObjectDatabase)
    (d : ObjectDefinition) (hin : i < n)
    (hget : db_get db (cname i) = none)
    (hinner : get_or_create_object fuel (cycle_spec n)
        (db_insert db (cname i) (hull_struct (cname i)))
        ["#", "components", "schemas"] (cname ((i + 1) % n)) (cschema n ((i + 1) % n))
        NameMapping.new
      = (db2, .ok d)) :
    get_or_create_object (fuel + 7) (cycle_spec n) db ["#", "components", "schemas"] (cname i)
        (cschema n i) NameMapping.new
      = (db_insert db2 (cname i) (cycle_struct_of i (get_object_name d)),
         .ok (cycle_struct_of i (get_object_name d))) := by
  have hmod : (i + 1) % n < n := Nat.mod_lt _ (by omega)
  have hname := nm_new_struct_name ["#", "components", "schemas"] (cname i)
  rw [to_pascal_cname] at hname
  have hget' : lookup_assoc db (cname i) = none := hget
  have hempty : is_object_empty (cschema n i) = false := rfl
  have hany : (cschema n i).any_of = [] := rfl
  have hone : (cschema n i).one_of = [] := rfl
  have hst : (cschema n i).schema_type = some (.single .object) := rfl
  have hprops : (cschema n i).properties = [("next", cref ((i + 1) % n))] := rfl
  have hreq : (cschema n i).required = [] := rfl
  have hst2 : (cschema n ((i + 1) % n)).schema_type = some (.single .object) := rfl
  have htitle2 : (cschema n ((i + 1) % n)).title = none := rfl
  have hcont : (List.contains ([] : List String) "next") = false := rfl
  simp only [hull_struct] at hinner
  simp only [get_or_create_object, hname, db_get, hget', db_contains, contains_assoc,
    Option.isSome_none, Bool.false_eq_true, if_false,
    generate_object, hempty, hany, hone, hst, List.length_nil, Nat.lt_irrefl,
    generate_struct, hprops, hreq,
    generate_struct_properties, hcont,
    get_or_create_property,
    cycle_resolve n ((i + 1) % n) hmod,
    cycle_ref_name n ((i + 1) % n) hmod,
    get_type_from_schema, hst2,
    get_type_from_schema_type, htitle2,
    hinner,
    nm_new_next_property_name, insert_assoc, get_object_name,
    cycle_struct_of, cycle_prop_of]


theorem hulls_db_insert (i : Nat) :
    db_insert (hulls_db i) (cname i) (hull_struct (cname i)) = hulls_db (i + 1) := by
  simp only [db_insert, hulls_db]
  rw [insert_append_of_lookup_none _ _ _
    (lookup_range_map_none (fun j => hull_struct (cname j)) i i (Nat.le_refl i))]
  rw [List.range_succ, List.map_append]
  simp

theorem mixed_db_insert (n i : Nat) (hin : i < n) :
    db_insert (mixed_db n (i + 1)) (cname i) (cycle_struct n i) = mixed_db n i := by
  simp only [db_insert, mixed_db]
  rw [insert_range_map (fun j => if j < i + 1 then hull_struct (cname j) else cycle_struct n j)
    (cycle_struct n i) n i hin]
  apply List.map_congr_left
  intro j hj
  by_cases h : j = i
  · subst h
    simp
  · have hiff : j < i + 1 ↔ j < i := by omega
    simp [h, hiff]

theorem hulls_db_eq_mixed (n : Nat) : hulls_db n = mixed_db n n := by
  simp only [hulls_db, mixed_db]
  apply List.map_congr_left
  intro j hj
  have := List.mem_range.mp hj
  simp [this]

theorem cycle_level :
    ∀ (k n i : Nat), n = i + k + 1 →
      get_or_create_object (7 * k + 8) (cycle_spec n) (hulls_db i)
          ["#", "components", "schemas"] (cname i) (cschema n i) NameMapping.new
        = (mixed_db n i, .ok (cycle_struct n i))
  | 0, n, i, hn => by
    have hin : i < n := by omega
    have h8 : 7 * 0 + 8 = 1 + 7 := by norm_num
    rw [h8]
    have hmod0 : (i + 1) % n = 0 := by
      rw [show i + 1 = n from by omega, Nat.mod_self]
    have hget : db_get (hulls_db i) (cname i) = none :=
      lookup_range_map_none (fun j => hull_struct (cname j)) i i (Nat.le_refl i)
    have hmemo : db_get (hulls_db n) (cname 0) = some (hull_struct (cname 0)) :=
      lookup_range_map (fun j => hull_struct (cname j)) n 0 (by omega)
    have hins : db_insert (hulls_db i) (cname i) (hull_struct (cname i)) = hulls_db n := by
      rw [hulls_db_insert i, show i + 1 = n from by omega]
    have hinner : get_or_create_object 1 (cycle_spec n)
        (db_insert (hulls_db i) (cname i) (hull_struct (cname i)))
        ["#", "components", "schemas"] (cname ((i + 1) % n)) (cschema n ((i + 1) % n))
        NameMapping.new
      = (hulls_db n, .ok (hull_struct (cname 0))) := by
      rw [hins, hmod0]
      apply get_or_create_object_memo
      rw [nm_new_struct_name, to_pascal_cname]
      exact hmemo
    have hout := get_or_create_object_cycle_unfold n i 1 (hulls_db i) (hulls_db n)
      (hull_struct (cname 0)) hin hget hinner
    rw [hout, show get_object_name (hull_struct (cname 0)) = cname 0 from rfl]
    rw [show cycle_struct_of i (cname 0) = cycle_struct n i from by rw [cycle_struct, hmod0]]
    rw [hulls_db_eq_mixed n, show mixed_db n n = mixed_db n (i + 1) from by
      rw [show i + 1 = n from by omega]]
    rw [mixed_db_insert n i hin]
  | k + 1, n, i, hn => by
    have hin : i < n := by omega
    have hlt : i + 1 < n := by omega
    have hmod : (i + 1) % n = i + 1 := Nat.mod_eq_of_lt hlt
    have hf : 7 * (k + 1) + 8 = (7 * k + 8) + 7 := by ring
    rw [hf]
    have hget : db_get (hulls_db i) (cname i) = none :=
      lookup_range_map_none (fun j => hull_struct (cname j)) i i (Nat.le_refl i)
    have hinner : get_or_create_object (7 * k + 8) (cycle_spec n)
        (db_insert (hulls_db i) (cname i) (hull_struct (cname i)))
        ["#", "components", "schemas"] (cname ((i + 1) % n)) (cschema n ((i + 1) % n))
        NameMapping.new
      = (mixed_db n (i + 1), .ok (cycle_struct n (i + 1))) := by
      rw [hulls_db_insert i, hmod]
      exact cycle_level k n (i + 1) (by omega)
    have hout := get_or_create_object_cycle_unfold n i (7 * k + 8) (hulls_db i)
      (mixed_db n (i + 1)) (cycle_struct n (i + 1)) hin hget hinner
    rw [hout, show get_object_name (cycle_struct n (i + 1)) = cname (i + 1) from rfl]
    rw [show cycle_struct_of i (cname (i + 1)) = cycle_struct n i from by rw [cycle_struct, hmod]]
    rw [mixed_db_insert n i hin]

theorem db_count_key_range_map (g : Nat → ObjectDefinition) :
    ∀ n : Nat, 0 < n → db_count_key ((List.range n).map (fun j => (cname j, g j))) (cname 0) = 1
  | 0, h => by omega
  | n + 1, _ => by
    by_cases hn0 : n = 0
    · subst hn0
      simp [db_count_key, List.range_succ]
    · rw [List.range_succ, List.map_append]
      simp only [db_count_key, List.filter_append, List.length_append]
      have h1 := db_count_key_range_map g n (by omega)
      simp only [db_count_key] at h1
      rw [h1]
      have hne : (cname n == cname 0) = false := by
        apply beq_eq_false_iff_ne.mpr
        intro he
        exact hn0 (cname_injective he)
      simp [hne]


/-- C1: a cycle of n mutually referential components (n = 1 being a direct
self-reference) resolves successfully with bounded fuel 7*(n-1)+8: the run
terminates with .ok, the finished database has exactly one entry named A
(= cname 0), and that entry's "next" property carries a type reference back
into the cycle (to A itself when n = 1). -/
theorem claim_C1_cycle_resolution_terminates (n : Nat) (hn : 1 ≤ n) :
    ∃ db d,
      get_or_create_object (7 * (n - 1) + 8) (cycle_spec n) []
          ["#", "components", "schemas"] (cname 0) (cschema n 0) NameMapping.new
        = (db, .ok d) ∧
      db_count_key db (cname 0) = 1 ∧
      ∃ sd, db_get db (cname 0) = some (.Struct sd) ∧
        ∃ pd, lookup_assoc sd.properties "next" = some pd ∧
          pd.type_name = cname (1 % n) := by
  have h0 := cycle_level (n - 1) n 0 (by omega)
  have hh : hulls_db 0 = ([] : ObjectDatabase) := rfl
  rw [hh] at h0
  refine ⟨mixed_db n 0, cycle_struct n 0, h0, ?_, ?_⟩
  · exact db_count_key_range_map
      (fun j => if j < 0 then hull_struct (cname j) else cycle_struct n j) n (by omega)
  · refine ⟨{ used_modules := serde_modules, name := cname 0,
              properties := [("next", cycle_prop_of (cname (1 % n)))] }, ?_,
      cycle_prop_of (cname (1 % n)), rfl, rfl⟩
    have hl := lookup_range_map
      (fun j => if j < 0 then hull_struct (cname j) else cycle_struct n j) n 0 (by omega)
    simpa [db_get, mixed_db, cycle_struct, cycle_struct_of] using hl

/-- Witness for C1 at the two-component cycle A -> Aa -> A. -/
theorem claim_C1_witness :
    1 ≤ 2 ∧
    (∃ db d,
      get_or_create_object (7 * (2 - 1) + 8) (cycle_spec 2) []
          ["#", "components", "schemas"] (cname 0) (cschema 2 0) NameMapping.new
        = (db, .ok d) ∧
      db_count_key db (cname 0) = 1 ∧
      ∃ sd, db_get db (cname 0) = some (.Struct sd) ∧
        ∃ pd, lookup_assoc sd.properties "next" = some pd ∧
          pd.type_name = cname (1 % 2)) :=
  ⟨by decide, claim_C1_cycle_resolution_terminates 2 (by decide)⟩

end Opage
